import Mathlib

/-!
Shallow embedding of `src/IntercoolerSprayController.ino` (Arduino Due
intercooler water-spray controller).

Modelling conventions:
* `uint32_t` values are `Nat`s reduced modulo `2^32` at every arithmetic
  operation that the C code performs on them (`sub32`, `add32`), so the
  wrap-around subtraction `now - t` of the source is reproduced exactly.
* Digital levels are `Bool`s.  For the button and the raw water reading we
  keep the source polarity: `true = HIGH`.  The button is wired with a
  pull-up, so `true` means *released* and `false` (`LOW`) means *pressed*.
  `lowWater` mirrors the `int lowWater = HIGH` global: `true` means the
  debounced water level is LOW (tank empty); it is initialised to `true`
  exactly as the source initialises it to `HIGH` (= 1).
* The two hardware output pins become the fields `pump` and `led`
  (current level written by `digitalWrite`).
* `dueFlashStorage` becomes the fields `storedByte` (slot 0 content) and
  `writeCount` (number of `write` calls performed), so "a write occurred"
  is observable.
* The blocking helper `blinkLED(times, duration)` is modelled as appending
  `(times, duration)` to the log `blinkLog`; the log lets us observe which
  blink patterns a run renders.
* `Serial` is modelled as never having input pending (the diagnostic
  console is an out-of-scope boundary), so `checkSerialBeforeStartup` and
  `handleSerialDiagnostics` are state-identities and are elided from
  `loopStep`.
* `startFlashPattern` records the pattern bookkeeping the source stores in
  its `volatile` flash variables; the Timer3 interrupt that advances the
  pattern is an external concurrent callback and is not part of the main
  control cycle modelled here.
* C `static` locals of `trackBoostDuration` (`lastBoost`) and
  `triggerCooldownSpray` (`cooling`, `cooldownStart`) are ordinary state
  fields, as they persist across calls.
-/

set_option maxRecDepth 100000

def U32 : Nat := 4294967296

/-- `uint32_t` subtraction `a - b` with wrap-around. -/
def sub32 (a b : Nat) : Nat := (a % U32 + (U32 - b % U32)) % U32

/-- `uint32_t` addition with wrap-around. -/
def add32 (a b : Nat) : Nat := (a + b) % U32

theorem sub32_eq_sub (a b : Nat) (ha : a < U32) (h : b ≤ a) : sub32 a b = a - b := by
  simp only [sub32, U32] at *
  omega

theorem sub32_self (a : Nat) : sub32 a a = 0 := by
  simp only [sub32, U32]
  omega

-- === Constants (source lines 22-34, 427-428) ===
def debounceDelay : Nat := 50
def holdThreshold : Nat := 2000
def doubleClickMaxGap : Nat := 500
def sprayDuration : Nat := 2000
def sprayInterval : Nat := 30000
def lowWaterBlinkDuration : Nat := 10000
def startupDelay : Nat := 15000
def lowLevelDelay : Nat := 3000
def waterStableTime : Nat := 1000
def cooldownWindow : Nat := 60000
def boostThreshold : Nat := 20000

-- === Modes (enum Mode, source lines 38-43) ===
inductive Mode : Type where
  | off : Mode
  | boost : Mode
  | interval : Mode
  | force : Mode
  deriving Repr, DecidableEq

/-- The byte value of a mode, as stored by `dueFlashStorage.write`. -/
def modeVal : Mode → Nat
  | Mode.off => 0
  | Mode.boost => 1
  | Mode.interval => 2
  | Mode.force => 3

/-- The complete global state of the sketch (globals plus `static` locals
plus the two output pin levels plus the flash-storage boundary). -/
structure St where
  currentMode : Mode
  lastSavedMode : Mode
  buttonPressStart : Nat
  buttonHeld : Bool
  waitingForSecondClick : Bool
  lastClickTime : Nat
  clickCount : Nat
  lastDebounceTime : Nat
  lastRawState : Bool
  debouncedState : Bool
  spraying : Bool
  sprayStartTime : Nat
  lastSprayTime : Nat
  ledState : Bool
  lastBlinkTime : Nat
  flashActive : Bool
  flashCount : Nat
  flashTotal : Nat
  lowWaterWarningActive : Bool
  lowWaterWarningStart : Nat
  lastRawWater : Bool
  lowWater : Bool
  lastWaterChange : Nat
  lastLowWaterState : Bool
  startupTime : Nat
  startupDone : Bool
  lastBoost : Bool
  cooldownReady : Bool
  boostTimeAccumulator : Nat
  lastBoostUpdate : Nat
  cooling : Bool
  cooldownStart : Nat
  refillDetectionTime : Nat
  refillRecentlyDetected : Bool
  pump : Bool
  led : Bool
  storedByte : Nat
  writeCount : Nat
  blinkLog : List (Nat × Nat)
  deriving Repr, DecidableEq

/-- Per-cycle inputs of `loop`: `millis()` and the three digital input
lines after the polarity conversion the source applies when reading them
(`rawWaterLow` is `digitalRead(lowLevelPin) != HIGH`; `underBoost` is
`digitalRead(hobbSwitchPin) == LOW`; `button` is the raw level of the
button pin, `true` = HIGH = released). -/
structure Inp where
  now : Nat
  rawWaterLow : Bool
  underBoost : Bool
  button : Bool
  deriving Repr

-- === startSpray (source lines 336-342) ===
def startSpray (s : St) (now : Nat) : St :=
  { s with spraying := true, sprayStartTime := now, lastSprayTime := now,
           pump := true, led := true }

-- === stopSpray (source lines 344-351) ===
def stopSpray (s : St) : St :=
  let s := { s with spraying := false, pump := false }
  if s.flashActive = false then { s with led := false } else s

-- === saveModeIfNeeded (source lines 392-399) ===
def saveModeIfNeeded (s : St) : St :=
  if s.currentMode = Mode.boost ∨ s.currentMode = Mode.interval ∨ s.currentMode = Mode.off then
    if s.currentMode ≠ s.lastSavedMode then
      { s with storedByte := modeVal s.currentMode, writeCount := s.writeCount + 1,
               lastSavedMode := s.currentMode }
    else s
  else s

-- === startFlashPattern (source lines 364-376); Timer3 period setting and
-- the interrupt attach are external, only the shared flash state is kept.
def startFlashPattern (s : St) (count : Nat) (_interval : Nat) : St :=
  { s with flashTotal := count * 2 % 256, flashCount := 0, flashActive := true,
           ledState := false, led := false }

-- === flashLED (source lines 354-360) ===
def flashLED (s : St) (now : Nat) (interval : Nat) : St :=
  if interval ≤ sub32 now s.lastBlinkTime then
    { s with ledState := !s.ledState, led := !s.ledState, lastBlinkTime := now }
  else s

-- === debouncedWaterLevel (source lines 306-314) ===
def debouncedWaterLevel (s : St) (now : Nat) (raw : Bool) : St :=
  let s := if raw ≠ s.lastRawWater then
      { s with lastWaterChange := now, lastRawWater := raw }
    else s
  if waterStableTime ≤ sub32 now s.lastWaterChange then { s with lowWater := raw } else s

-- === blinkLED (source lines 497-504), blocking; the rendered pattern is
-- logged so that claims about LED feedback can observe it.
def blinkLED (s : St) (times : Nat) (duration : Nat) : St :=
  { s with blinkLog := s.blinkLog ++ [(times, duration)], led := false }

-- === checkRefillDetection (source lines 479-495) ===
def checkRefillDetection (s : St) (now : Nat) : St :=
  let currentLowWater := s.lowWater
  let s := if s.lastLowWaterState = true ∧ currentLowWater = false then
      blinkLED { s with refillDetectionTime := now, refillRecentlyDetected := true } 5 100
    else s
  let s := if s.refillRecentlyDetected = true ∧ 5000 < sub32 now s.refillDetectionTime then
      { s with refillRecentlyDetected := false }
    else s
  { s with lastLowWaterState := currentLowWater }

-- === handleButton (source lines 125-209) ===
-- The body is split into the three blocks of the source function (the
-- stable-edge handling, the hold check, and the pending-click resolution),
-- composed exactly in source order inside `handleButton`.

/-- Block 2 of `handleButton`: stable-transition press/release edge
handling (source lines 134-162), entered only when the debounce window has
elapsed.  `reading` is the raw level (`false` = LOW = pressed). -/
def buttonEdge (s : St) (now : Nat) (reading : Bool) : St :=
  if reading ≠ s.debouncedState then
    let s := { s with debouncedState := reading }
    if s.debouncedState = false then
      { s with buttonPressStart := now, buttonHeld := false }
    else
      if s.buttonHeld = false then
        let s := { s with clickCount := (s.clickCount + 1) % 256 }
        if s.waitingForSecondClick = false then
          { s with waitingForSecondClick := true, lastClickTime := now }
        else s
      else
        stopSpray { s with currentMode := s.lastSavedMode }
  else s

/-- Block 3 of `handleButton`: hold detection while stably LOW (source
lines 164-168). -/
def holdCheck (s : St) (now : Nat) : St :=
  if s.debouncedState = false ∧ s.buttonHeld = false ∧
      holdThreshold ≤ sub32 now s.buttonPressStart then
    { s with buttonHeld := true, currentMode := Mode.force }
  else s

/-- Block 4 of `handleButton`: pending-click classification once the
inter-click window has expired (source lines 170-204). -/
def clickResolution (s : St) (now : Nat) : St :=
  if s.waitingForSecondClick = true ∧ doubleClickMaxGap < sub32 now s.lastClickTime then
    if s.clickCount = 1 then
      let s :=
        if s.currentMode = Mode.off then
          saveModeIfNeeded (startFlashPattern { s with currentMode := Mode.boost } 1 250)
        else if s.currentMode = Mode.boost then
          saveModeIfNeeded (startFlashPattern { s with currentMode := Mode.off } 3 250)
        else if s.currentMode = Mode.interval then
          saveModeIfNeeded (startFlashPattern { s with currentMode := Mode.off } 3 200)
        else s
      { s with clickCount := 0, waitingForSecondClick := false }
    else if s.clickCount = 2 then
      let s :=
        if s.currentMode = Mode.off then
          saveModeIfNeeded (startFlashPattern { s with currentMode := Mode.interval } 2 400)
        else s
      { s with clickCount := 0, waitingForSecondClick := false }
    else s
  else s

def handleButton (s : St) (now : Nat) (reading : Bool) : St :=
  let s := if reading ≠ s.lastRawState then { s with lastDebounceTime := now } else s
  let s :=
    if debounceDelay < sub32 now s.lastDebounceTime then
      clickResolution (holdCheck (buttonEdge s now reading) now) now
    else s
  { s with lastRawState := reading }

-- === runBoostMode (source lines 318-325) ===
def runBoostMode (s : St) (now : Nat) (underBoost : Bool) : St :=
  let s := if underBoost = true ∧ s.spraying = false ∧
      sprayInterval ≤ sub32 now s.lastSprayTime then startSpray s now else s
  if s.spraying = true ∧ sprayDuration ≤ sub32 now s.sprayStartTime then stopSpray s else s

-- === runIntervalMode (source lines 327-334) ===
def runIntervalMode (s : St) (now : Nat) : St :=
  let s := if s.spraying = false ∧ sprayInterval ≤ sub32 now s.lastSprayTime then
      startSpray s now
    else s
  if s.spraying = true ∧ sprayDuration ≤ sub32 now s.sprayStartTime then stopSpray s else s

-- === trackBoostDuration (source lines 433-455) ===
def trackBoostDuration (s : St) (underBoost : Bool) (now : Nat) : St :=
  if s.currentMode ≠ Mode.boost then s
  else
    let s :=
      if underBoost = true then
        let s := if s.lastBoost = false then { s with lastBoostUpdate := now } else s
        let s :=
          { s with boostTimeAccumulator :=
                     add32 s.boostTimeAccumulator (sub32 now s.lastBoostUpdate) }
        { s with lastBoostUpdate := now }
      else { s with lastBoostUpdate := now }
    let s := if cooldownWindow < sub32 now s.lastBoostUpdate then
        { s with boostTimeAccumulator := 0 }
      else s
    let s := if boostThreshold ≤ s.boostTimeAccumulator then
        { s with cooldownReady := true, boostTimeAccumulator := 0 }
      else s
    { s with lastBoost := underBoost }

-- === triggerCooldownSpray (source lines 457-476) ===
-- Note the source's `else { return; }`: the duration check below it runs
-- only in the very cycle a cooldown spray was started.
def triggerCooldownSpray (s : St) (now : Nat) : St :=
  if s.currentMode ≠ Mode.boost then s
  else
    if s.cooldownReady = true ∧ s.cooling = false ∧ s.lastLowWaterState = false then
      let s := startSpray s now
      let s := { s with cooling := true, cooldownStart := now, cooldownReady := false }
      if s.cooling = true ∧ sprayDuration ≤ sub32 now s.cooldownStart then
        { stopSpray s with cooling := false }
      else s
    else s

-- === setup (source lines 89-122); `saved` is the byte in flash slot 0,
-- `t0` the `millis()` value at the end of `setup`.
def setup (saved : Nat) (t0 : Nat) : St :=
  let mode := if saved = 1 then Mode.boost else if saved = 2 then Mode.interval else Mode.off
  let s : St := {
    currentMode := mode, lastSavedMode := mode,
    buttonPressStart := 0, buttonHeld := false, waitingForSecondClick := false,
    lastClickTime := 0, clickCount := 0, lastDebounceTime := 0,
    lastRawState := true, debouncedState := true,
    spraying := false, sprayStartTime := 0, lastSprayTime := 0,
    ledState := false, lastBlinkTime := 0, flashActive := false,
    flashCount := 0, flashTotal := 0,
    lowWaterWarningActive := false, lowWaterWarningStart := 0,
    lastRawWater := true, lowWater := true, lastWaterChange := 0,
    lastLowWaterState := true,
    startupTime := t0, startupDone := false,
    lastBoost := false, cooldownReady := false, boostTimeAccumulator := 0,
    lastBoostUpdate := 0, cooling := false, cooldownStart := 0,
    refillDetectionTime := 0, refillRecentlyDetected := false,
    pump := false, led := false, storedByte := saved, writeCount := 0,
    blinkLog := [] }
  if mode = Mode.boost then startFlashPattern s 1 400
  else if mode = Mode.interval then startFlashPattern s 2 400
  else s

-- === loop (source lines 218-303) ===
-- Split into the phases of the source body; serial handling is a no-op in
-- the modelled (console-silent) environment and is elided.

/-- Sensor latch plus button handling (source lines 245-248). -/
def loopPre (s : St) (i : Inp) : St :=
  handleButton { s with lastLowWaterState := s.lowWater } i.now i.button

/-- Low-water warning entry (source lines 251-257). -/
def warningEntry (s : St) (now : Nat) : St :=
  if s.lowWater = true ∧ s.lowWaterWarningActive = false ∧ s.currentMode ≠ Mode.off then
    stopSpray (saveModeIfNeeded
      { s with lowWaterWarningActive := true, lowWaterWarningStart := now,
               currentMode := Mode.off })
  else s

/-- The warning-active block (source lines 259-274), which ends the cycle. -/
def warningBlock (s : St) (now : Nat) : St :=
  let s := if 500 ≤ sub32 now s.lastBlinkTime then
      { s with ledState := !s.ledState, led := !s.ledState, lastBlinkTime := now }
    else s
  let s := if lowWaterBlinkDuration ≤ sub32 now s.lowWaterWarningStart then
      { s with led := false, lowWaterWarningActive := false }
    else s
  stopSpray s

/-- The mode switch (source lines 287-298). -/
def sprayPhase (s : St) (i : Inp) : St :=
  match s.currentMode with
  | Mode.boost => runBoostMode s i.now i.underBoost
  | Mode.interval => runIntervalMode s i.now
  | Mode.off => stopSpray s
  | Mode.force => s

def loopMain (s : St) (i : Inp) : St :=
  let s := warningEntry (loopPre s i) i.now
  if s.lowWaterWarningActive = true then warningBlock s i.now
  else if s.currentMode = Mode.force then
    (if s.lowWater = false then startSpray s i.now else flashLED s i.now 200)
  else
    triggerCooldownSpray (trackBoostDuration (sprayPhase s i) i.underBoost i.now) i.now

def loopStep (s : St) (i : Inp) : St :=
  let s := debouncedWaterLevel s i.now i.rawWaterLow
  if s.startupDone = true then loopMain s i
  else
    let s := if lowLevelDelay ≤ sub32 i.now s.startupTime ∧ s.lowWater = true then
        flashLED s i.now 200
      else s
    if sub32 i.now s.startupTime < startupDelay then s
    else loopMain { s with startupDone := true, led := false } i

/-- A run of the main control cycle over a list of per-cycle inputs. -/
def loopRun (s : St) (l : List Inp) : St := l.foldl loopStep s

/-- A run of `handleButton` alone over (now, reading) samples. -/
def buttonRun (s : St) (l : List (Nat × Bool)) : St :=
  l.foldl (fun s p => handleButton s p.1 p.2) s

/-- A run of `trackBoostDuration` alone over (underBoost, now) samples. -/
def trackRun (s : St) (l : List (Bool × Nat)) : St :=
  l.foldl (fun s p => trackBoostDuration s p.1 p.2) s

/-!  Frame lemmas.  `cooldownObs` bundles the Boost Cooldown Tracker state
(globals `boostTimeAccumulator`, `cooldownReady`, `lastBoostUpdate` and the
static locals `cooling`, `cooldownStart`, `lastBoost`); `refillObs` bundles
the refill-detection state together with the `blinkLED` log; `warnObs`
bundles the low-water warning state.  -/

def cooldownObs (s : St) : Nat × Bool × Nat × Bool × Nat × Bool :=
  (s.boostTimeAccumulator, s.cooldownReady, s.lastBoostUpdate, s.cooling,
   s.cooldownStart, s.lastBoost)

def refillObs (s : St) : List (Nat × Nat) × Bool × Nat :=
  (s.blinkLog, s.refillRecentlyDetected, s.refillDetectionTime)

def warnObs (s : St) : Bool × Nat :=
  (s.lowWaterWarningActive, s.lowWaterWarningStart)

/-- The state reached after the water-level debouncer and the button
handler have run in a cycle — the point at which the source's low-water
warning check (line 251) executes. -/
def cyclePre (s : St) (i : Inp) : St :=
  loopPre (debouncedWaterLevel s i.now i.rawWaterLow) i

/-!  Concrete states and input traces used by counterexamples and
witnesses.  All runs start from `setup`, i.e. from a genuine boot state. -/

/-- A Force-mode state with a spray session in progress, as produced by a
previous `startSpray`; Force mode re-calls `startSpray` every cycle, so
`startSpray` is invoked with `spraying = true` in real executions. -/
def c1state : St :=
  { setup 0 0 with currentMode := Mode.force, spraying := true,
                   sprayStartTime := 5, lastSprayTime := 5, pump := true, led := true }

/-- Boot (stored mode 0 = Off), startup window passes with water OK, a
single click at ~15.1 s selects Boost, water turns low (debounced at
16 770 ms) which enters the warning and forces Off, then a second single
click during the warning is classified at 17 350 ms. -/
def c2inputs : List Inp := [
  ⟨0, false, false, true⟩, ⟨1100, false, false, true⟩, ⟨15000, false, false, true⟩,
  ⟨15010, false, false, false⟩, ⟨15070, false, false, false⟩, ⟨15080, false, false, true⟩,
  ⟨15140, false, false, true⟩, ⟨15700, false, false, true⟩,
  ⟨15710, true, false, true⟩, ⟨15720, true, false, false⟩, ⟨16770, true, false, false⟩,
  ⟨16780, true, false, true⟩, ⟨16840, true, false, true⟩, ⟨17350, true, false, true⟩ ]

def c2end : St := loopRun (setup 0 0) c2inputs

/-- A post-startup Boost-mode state with the water debouncer already
reading low, about to enter the warning. -/
def c2entryState : St :=
  { setup 0 0 with startupDone := true, currentMode := Mode.boost,
                   lastSavedMode := Mode.boost, lowWater := true, lastRawWater := true }

/-- A post-startup state in which the warning has been active for 1 s and
the mode is Off. -/
def c2keepState : St :=
  { setup 0 0 with startupDone := true, lowWaterWarningActive := true,
                   lowWaterWarningStart := 49000, lowWater := true, lastRawWater := true }

def c2wInp : Inp := ⟨50000, true, false, true⟩

/-- Boot with stored mode Boost, water OK, boost switch held active.  The
accumulator arms at 35 000 ms and the first cooldown spray fires. -/
def c3phase1 : List Inp := [
  ⟨0, false, true, true⟩, ⟨1100, false, true, true⟩, ⟨15000, false, true, true⟩,
  ⟨20000, false, true, true⟩, ⟨25000, false, true, true⟩, ⟨30000, false, true, true⟩,
  ⟨32000, false, true, true⟩, ⟨35000, false, true, true⟩ ]

/-- Continuation: boost stays active, the accumulator re-arms at
55 000 ms, and a further cycle runs at 56 000 ms. -/
def c3phase2 : List Inp := [
  ⟨37000, false, true, true⟩, ⟨40000, false, true, true⟩, ⟨45000, false, true, true⟩,
  ⟨50000, false, true, true⟩, ⟨55000, false, true, true⟩, ⟨56000, false, true, true⟩ ]

def c3mid : St := loopRun (setup 1 0) c3phase1

def c3end : St := loopRun c3mid c3phase2

/-- Boost-active samples accumulating 10 s of credit, then boost-inactive
samples with the last one 69 999 ms after the last boost-active sample. -/
def c4firstSamples : List (Bool × Nat) :=
  [(true, 0), (true, 10000), (false, 10001), (false, 80000)]

/-- Fresh boost activity contributing only 10 s more. -/
def c4moreSamples : List (Bool × Nat) := [(true, 80001), (true, 90001)]

def c4mid : St := trackRun (setup 1 0) c4firstSamples

def c4end : St := trackRun c4mid c4moreSamples

/-- Three debounced clicks inside one 500 ms pending window (releases at
225 ms, 355 ms and 485 ms), then an idle sample far past the window. -/
def c5samples : List (Nat × Bool) := [
  (100, false), (160, false), (170, true), (225, true),
  (235, false), (290, false), (300, true), (355, true),
  (365, false), (420, false), (430, true), (485, true),
  (1000000, true) ]

def c5end : St := buttonRun (setup 0 0) c5samples

/-- One pending click whose 500 ms window has expired. -/
def c5witState : St :=
  { setup 0 0 with waitingForSecondClick := true, clickCount := 1, lastClickTime := 100 }

/-- Stably pressed for 2 100 ms, hold flag not yet set. -/
def c6pressedState : St :=
  { setup 0 0 with lastRawState := false, debouncedState := false,
                   buttonPressStart := 100, lastDebounceTime := 150 }

/-- Held state just before the stable release edge commits. -/
def c6releaseState : St :=
  { setup 0 0 with lastRawState := true, debouncedState := false, buttonHeld := true,
                   lastDebounceTime := 150, currentMode := Mode.force,
                   lastSavedMode := Mode.boost }

/-- Idle released state with the hold flag still set. -/
def c6idleState : St := { setup 0 0 with buttonHeld := true }

/-- Mode changed to Boost in RAM, flash still holding Off. -/
def c7changedState : St := { setup 0 0 with currentMode := Mode.boost }

/-- No session active, no flash pattern active, lamp currently lit (as
during the warning blink). -/
def c8state : St := { setup 0 0 with ledState := true, led := true }

def c10state : St :=
  { setup 0 0 with startupDone := true, lowWater := false, lastRawWater := false }

def c10inp : Inp := ⟨20000, false, true, true⟩

/-!  Frame lemmas, one per (function, untouched field) pair that later
proofs need.  Each is proved by unfolding the function and splitting its
branches.  -/

@[simp] theorem startSpray_boostTimeAccumulator (s : St) (now : Nat) :
    (startSpray s now).boostTimeAccumulator = s.boostTimeAccumulator := by
  simp only [startSpray]
  repeat' split
  all_goals first | rfl | simp

@[simp] theorem startSpray_cooldownReady (s : St) (now : Nat) :
    (startSpray s now).cooldownReady = s.cooldownReady := by
  simp only [startSpray]
  repeat' split
  all_goals first | rfl | simp

@[simp] theorem startSpray_lastBoostUpdate (s : St) (now : Nat) :
    (startSpray s now).lastBoostUpdate = s.lastBoostUpdate := by
  simp only [startSpray]
  repeat' split
  all_goals first | rfl | simp

@[simp] theorem startSpray_cooling (s : St) (now : Nat) :
    (startSpray s now).cooling = s.cooling := by
  simp only [startSpray]
  repeat' split
  all_goals first | rfl | simp

@[simp] theorem startSpray_cooldownStart (s : St) (now : Nat) :
    (startSpray s now).cooldownStart = s.cooldownStart := by
  simp only [startSpray]
  repeat' split
  all_goals first | rfl | simp

@[simp] theorem startSpray_lastBoost (s : St) (now : Nat) :
    (startSpray s now).lastBoost = s.lastBoost := by
  simp only [startSpray]
  repeat' split
  all_goals first | rfl | simp

@[simp] theorem startSpray_blinkLog (s : St) (now : Nat) :
    (startSpray s now).blinkLog = s.blinkLog := by
  simp only [startSpray]
  repeat' split
  all_goals first | rfl | simp

@[simp] theorem startSpray_refillRecentlyDetected (s : St) (now : Nat) :
    (startSpray s now).refillRecentlyDetected = s.refillRecentlyDetected := by
  simp only [startSpray]
  repeat' split
  all_goals first | rfl | simp

@[simp] theorem startSpray_refillDetectionTime (s : St) (now : Nat) :
    (startSpray s now).refillDetectionTime = s.refillDetectionTime := by
  simp only [startSpray]
  repeat' split
  all_goals first | rfl | simp

@[simp] theorem startSpray_lowWaterWarningActive (s : St) (now : Nat) :
    (startSpray s now).lowWaterWarningActive = s.lowWaterWarningActive := by
  simp only [startSpray]
  repeat' split
  all_goals first | rfl | simp

@[simp] theorem startSpray_lowWaterWarningStart (s : St) (now : Nat) :
    (startSpray s now).lowWaterWarningStart = s.lowWaterWarningStart := by
  simp only [startSpray]
  repeat' split
  all_goals first | rfl | simp

@[simp] theorem startSpray_currentMode (s : St) (now : Nat) :
    (startSpray s now).currentMode = s.currentMode := by
  simp only [startSpray]
  repeat' split
  all_goals first | rfl | simp

@[simp] theorem stopSpray_boostTimeAccumulator (s : St) :
    (stopSpray s).boostTimeAccumulator = s.boostTimeAccumulator := by
  simp only [stopSpray]
  repeat' split
  all_goals first | rfl | simp

@[simp] theorem stopSpray_cooldownReady (s : St) :
    (stopSpray s).cooldownReady = s.cooldownReady := by
  simp only [stopSpray]
  repeat' split
  all_goals first | rfl | simp

@[simp] theorem stopSpray_lastBoostUpdate (s : St) :
    (stopSpray s).lastBoostUpdate = s.lastBoostUpdate := by
  simp only [stopSpray]
  repeat' split
  all_goals first | rfl | simp

@[simp] theorem stopSpray_cooling (s : St) :
    (stopSpray s).cooling = s.cooling := by
  simp only [stopSpray]
  repeat' split
  all_goals first | rfl | simp

@[simp] theorem stopSpray_cooldownStart (s : St) :
    (stopSpray s).cooldownStart = s.cooldownStart := by
  simp only [stopSpray]
  repeat' split
  all_goals first | rfl | simp

@[simp] theorem stopSpray_lastBoost (s : St) :
    (stopSpray s).lastBoost = s.lastBoost := by
  simp only [stopSpray]
  repeat' split
  all_goals first | rfl | simp

@[simp] theorem stopSpray_blinkLog (s : St) :
    (stopSpray s).blinkLog = s.blinkLog := by
  simp only [stopSpray]
  repeat' split
  all_goals first | rfl | simp

@[simp] theorem stopSpray_refillRecentlyDetected (s : St) :
    (stopSpray s).refillRecentlyDetected = s.refillRecentlyDetected := by
  simp only [stopSpray]
  repeat' split
  all_goals first | rfl | simp

@[simp] theorem stopSpray_refillDetectionTime (s : St) :
    (stopSpray s).refillDetectionTime = s.refillDetectionTime := by
  simp only [stopSpray]
  repeat' split
  all_goals first | rfl | simp

@[simp] theorem stopSpray_lowWaterWarningActive (s : St) :
    (stopSpray s).lowWaterWarningActive = s.lowWaterWarningActive := by
  simp only [stopSpray]
  repeat' split
  all_goals first | rfl | simp

@[simp] theorem stopSpray_lowWaterWarningStart (s : St) :
    (stopSpray s).lowWaterWarningStart = s.lowWaterWarningStart := by
  simp only [stopSpray]
  repeat' split
  all_goals first | rfl | simp

@[simp] theorem stopSpray_currentMode (s : St) :
    (stopSpray s).currentMode = s.currentMode := by
  simp only [stopSpray]
  repeat' split
  all_goals first | rfl | simp

@[simp] theorem saveModeIfNeeded_boostTimeAccumulator (s : St) :
    (saveModeIfNeeded s).boostTimeAccumulator = s.boostTimeAccumulator := by
  simp only [saveModeIfNeeded]
  repeat' split
  all_goals first | rfl | simp

@[simp] theorem saveModeIfNeeded_cooldownReady (s : St) :
    (saveModeIfNeeded s).cooldownReady = s.cooldownReady := by
  simp only [saveModeIfNeeded]
  repeat' split
  all_goals first | rfl | simp

@[simp] theorem saveModeIfNeeded_lastBoostUpdate (s : St) :
    (saveModeIfNeeded s).lastBoostUpdate = s.lastBoostUpdate := by
  simp only [saveModeIfNeeded]
  repeat' split
  all_goals first | rfl | simp

@[simp] theorem saveModeIfNeeded_cooling (s : St) :
    (saveModeIfNeeded s).cooling = s.cooling := by
  simp only [saveModeIfNeeded]
  repeat' split
  all_goals first | rfl | simp

@[simp] theorem saveModeIfNeeded_cooldownStart (s : St) :
    (saveModeIfNeeded s).cooldownStart = s.cooldownStart := by
  simp only [saveModeIfNeeded]
  repeat' split
  all_goals first | rfl | simp

@[simp] theorem saveModeIfNeeded_lastBoost (s : St) :
    (saveModeIfNeeded s).lastBoost = s.lastBoost := by
  simp only [saveModeIfNeeded]
  repeat' split
  all_goals first | rfl | simp

@[simp] theorem saveModeIfNeeded_blinkLog (s : St) :
    (saveModeIfNeeded s).blinkLog = s.blinkLog := by
  simp only [saveModeIfNeeded]
  repeat' split
  all_goals first | rfl | simp

@[simp] theorem saveModeIfNeeded_refillRecentlyDetected (s : St) :
    (saveModeIfNeeded s).refillRecentlyDetected = s.refillRecentlyDetected := by
  simp only [saveModeIfNeeded]
  repeat' split
  all_goals first | rfl | simp

@[simp] theorem saveModeIfNeeded_refillDetectionTime (s : St) :
    (saveModeIfNeeded s).refillDetectionTime = s.refillDetectionTime := by
  simp only [saveModeIfNeeded]
  repeat' split
  all_goals first | rfl | simp

@[simp] theorem saveModeIfNeeded_lowWaterWarningActive (s : St) :
    (saveModeIfNeeded s).lowWaterWarningActive = s.lowWaterWarningActive := by
  simp only [saveModeIfNeeded]
  repeat' split
  all_goals first | rfl | simp

@[simp] theorem saveModeIfNeeded_lowWaterWarningStart (s : St) :
    (saveModeIfNeeded s).lowWaterWarningStart = s.lowWaterWarningStart := by
  simp only [saveModeIfNeeded]
  repeat' split
  all_goals first | rfl | simp

@[simp] theorem saveModeIfNeeded_currentMode (s : St) :
    (saveModeIfNeeded s).currentMode = s.currentMode := by
  simp only [saveModeIfNeeded]
  repeat' split
  all_goals first | rfl | simp

@[simp] theorem startFlashPattern_boostTimeAccumulator (s : St) (c i : Nat) :
    (startFlashPattern s c i).boostTimeAccumulator = s.boostTimeAccumulator := by
  simp only [startFlashPattern]
  repeat' split
  all_goals first | rfl | simp

@[simp] theorem startFlashPattern_cooldownReady (s : St) (c i : Nat) :
    (startFlashPattern s c i).cooldownReady = s.cooldownReady := by
  simp only [startFlashPattern]
  repeat' split
  all_goals first | rfl | simp

@[simp] theorem startFlashPattern_lastBoostUpdate (s : St) (c i : Nat) :
    (startFlashPattern s c i).lastBoostUpdate = s.lastBoostUpdate := by
  simp only [startFlashPattern]
  repeat' split
  all_goals first | rfl | simp

@[simp] theorem startFlashPattern_cooling (s : St) (c i : Nat) :
    (startFlashPattern s c i).cooling = s.cooling := by
  simp only [startFlashPattern]
  repeat' split
  all_goals first | rfl | simp

@[simp] theorem startFlashPattern_cooldownStart (s : St) (c i : Nat) :
    (startFlashPattern s c i).cooldownStart = s.cooldownStart := by
  simp only [startFlashPattern]
  repeat' split
  all_goals first | rfl | simp

@[simp] theorem startFlashPattern_lastBoost (s : St) (c i : Nat) :
    (startFlashPattern s c i).lastBoost = s.lastBoost := by
  simp only [startFlashPattern]
  repeat' split
  all_goals first | rfl | simp

@[simp] theorem startFlashPattern_blinkLog (s : St) (c i : Nat) :
    (startFlashPattern s c i).blinkLog = s.blinkLog := by
  simp only [startFlashPattern]
  repeat' split
  all_goals first | rfl | simp

@[simp] theorem startFlashPattern_refillRecentlyDetected (s : St) (c i : Nat) :
    (startFlashPattern s c i).refillRecentlyDetected = s.refillRecentlyDetected := by
  simp only [startFlashPattern]
  repeat' split
  all_goals first | rfl | simp

@[simp] theorem startFlashPattern_refillDetectionTime (s : St) (c i : Nat) :
    (startFlashPattern s c i).refillDetectionTime = s.refillDetectionTime := by
  simp only [startFlashPattern]
  repeat' split
  all_goals first | rfl | simp

@[simp] theorem startFlashPattern_lowWaterWarningActive (s : St) (c i : Nat) :
    (startFlashPattern s c i).lowWaterWarningActive = s.lowWaterWarningActive := by
  simp only [startFlashPattern]
  repeat' split
  all_goals first | rfl | simp

@[simp] theorem startFlashPattern_lowWaterWarningStart (s : St) (c i : Nat) :
    (startFlashPattern s c i).lowWaterWarningStart = s.lowWaterWarningStart := by
  simp only [startFlashPattern]
  repeat' split
  all_goals first | rfl | simp

@[simp] theorem startFlashPattern_currentMode (s : St) (c i : Nat) :
    (startFlashPattern s c i).currentMode = s.currentMode := by
  simp only [startFlashPattern]
  repeat' split
  all_goals first | rfl | simp

@[simp] theorem flashLED_boostTimeAccumulator (s : St) (now i : Nat) :
    (flashLED s now i).boostTimeAccumulator = s.boostTimeAccumulator := by
  simp only [flashLED]
  repeat' split
  all_goals first | rfl | simp

@[simp] theorem flashLED_cooldownReady (s : St) (now i : Nat) :
    (flashLED s now i).cooldownReady = s.cooldownReady := by
  simp only [flashLED]
  repeat' split
  all_goals first | rfl | simp

@[simp] theorem flashLED_lastBoostUpdate (s : St) (now i : Nat) :
    (flashLED s now i).lastBoostUpdate = s.lastBoostUpdate := by
  simp only [flashLED]
  repeat' split
  all_goals first | rfl | simp

@[simp] theorem flashLED_cooling (s : St) (now i : Nat) :
    (flashLED s now i).cooling = s.cooling := by
  simp only [flashLED]
  repeat' split
  all_goals first | rfl | simp

@[simp] theorem flashLED_cooldownStart (s : St) (now i : Nat) :
    (flashLED s now i).cooldownStart = s.cooldownStart := by
  simp only [flashLED]
  repeat' split
  all_goals first | rfl | simp

@[simp] theorem flashLED_lastBoost (s : St) (now i : Nat) :
    (flashLED s now i).lastBoost = s.lastBoost := by
  simp only [flashLED]
  repeat' split
  all_goals first | rfl | simp

@[simp] theorem flashLED_blinkLog (s : St) (now i : Nat) :
    (flashLED s now i).blinkLog = s.blinkLog := by
  simp only [flashLED]
  repeat' split
  all_goals first | rfl | simp

@[simp] theorem flashLED_refillRecentlyDetected (s : St) (now i : Nat) :
    (flashLED s now i).refillRecentlyDetected = s.refillRecentlyDetected := by
  simp only [flashLED]
  repeat' split
  all_goals first | rfl | simp

@[simp] theorem flashLED_refillDetectionTime (s : St) (now i : Nat) :
    (flashLED s now i).refillDetectionTime = s.refillDetectionTime := by
  simp only [flashLED]
  repeat' split
  all_goals first | rfl | simp

@[simp] theorem flashLED_lowWaterWarningActive (s : St) (now i : Nat) :
    (flashLED s now i).lowWaterWarningActive = s.lowWaterWarningActive := by
  simp only [flashLED]
  repeat' split
  all_goals first | rfl | simp

@[simp] theorem flashLED_lowWaterWarningStart (s : St) (now i : Nat) :
    (flashLED s now i).lowWaterWarningStart = s.lowWaterWarningStart := by
  simp only [flashLED]
  repeat' split
  all_goals first | rfl | simp

@[simp] theorem flashLED_currentMode (s : St) (now i : Nat) :
    (flashLED s now i).currentMode = s.currentMode := by
  simp only [flashLED]
  repeat' split
  all_goals first | rfl | simp

@[simp] theorem flashLED_startupDone (s : St) (now i : Nat) :
    (flashLED s now i).startupDone = s.startupDone := by
  simp only [flashLED]
  repeat' split
  all_goals first | rfl | simp

@[simp] theorem debouncedWaterLevel_boostTimeAccumulator (s : St) (now : Nat) (raw : Bool) :
    (debouncedWaterLevel s now raw).boostTimeAccumulator = s.boostTimeAccumulator := by
  simp only [debouncedWaterLevel]
  repeat' split
  all_goals first | rfl | simp

@[simp] theorem debouncedWaterLevel_cooldownReady (s : St) (now : Nat) (raw : Bool) :
    (debouncedWaterLevel s now raw).cooldownReady = s.cooldownReady := by
  simp only [debouncedWaterLevel]
  repeat' split
  all_goals first | rfl | simp

@[simp] theorem debouncedWaterLevel_lastBoostUpdate (s : St) (now : Nat) (raw : Bool) :
    (debouncedWaterLevel s now raw).lastBoostUpdate = s.lastBoostUpdate := by
  simp only [debouncedWaterLevel]
  repeat' split
  all_goals first | rfl | simp

@[simp] theorem debouncedWaterLevel_cooling (s : St) (now : Nat) (raw : Bool) :
    (debouncedWaterLevel s now raw).cooling = s.cooling := by
  simp only [debouncedWaterLevel]
  repeat' split
  all_goals first | rfl | simp

@[simp] theorem debouncedWaterLevel_cooldownStart (s : St) (now : Nat) (raw : Bool) :
    (debouncedWaterLevel s now raw).cooldownStart = s.cooldownStart := by
  simp only [debouncedWaterLevel]
  repeat' split
  all_goals first | rfl | simp

@[simp] theorem debouncedWaterLevel_lastBoost (s : St) (now : Nat) (raw : Bool) :
    (debouncedWaterLevel s now raw).lastBoost = s.lastBoost := by
  simp only [debouncedWaterLevel]
  repeat' split
  all_goals first | rfl | simp

@[simp] theorem debouncedWaterLevel_blinkLog (s : St) (now : Nat) (raw : Bool) :
    (debouncedWaterLevel s now raw).blinkLog = s.blinkLog := by
  simp only [debouncedWaterLevel]
  repeat' split
  all_goals first | rfl | simp

@[simp] theorem debouncedWaterLevel_refillRecentlyDetected (s : St) (now : Nat) (raw : Bool) :
    (debouncedWaterLevel s now raw).refillRecentlyDetected = s.refillRecentlyDetected := by
  simp only [debouncedWaterLevel]
  repeat' split
  all_goals first | rfl | simp

@[simp] theorem debouncedWaterLevel_refillDetectionTime (s : St) (now : Nat) (raw : Bool) :
    (debouncedWaterLevel s now raw).refillDetectionTime = s.refillDetectionTime := by
  simp only [debouncedWaterLevel]
  repeat' split
  all_goals first | rfl | simp

@[simp] theorem debouncedWaterLevel_lowWaterWarningActive (s : St) (now : Nat) (raw : Bool) :
    (debouncedWaterLevel s now raw).lowWaterWarningActive = s.lowWaterWarningActive := by
  simp only [debouncedWaterLevel]
  repeat' split
  all_goals first | rfl | simp

@[simp] theorem debouncedWaterLevel_lowWaterWarningStart (s : St) (now : Nat) (raw : Bool) :
    (debouncedWaterLevel s now raw).lowWaterWarningStart = s.lowWaterWarningStart := by
  simp only [debouncedWaterLevel]
  repeat' split
  all_goals first | rfl | simp

@[simp] theorem debouncedWaterLevel_currentMode (s : St) (now : Nat) (raw : Bool) :
    (debouncedWaterLevel s now raw).currentMode = s.currentMode := by
  simp only [debouncedWaterLevel]
  repeat' split
  all_goals first | rfl | simp

@[simp] theorem debouncedWaterLevel_startupDone (s : St) (now : Nat) (raw : Bool) :
    (debouncedWaterLevel s now raw).startupDone = s.startupDone := by
  simp only [debouncedWaterLevel]
  repeat' split
  all_goals first | rfl | simp

@[simp] theorem buttonEdge_boostTimeAccumulator (s : St) (now : Nat) (r : Bool) :
    (buttonEdge s now r).boostTimeAccumulator = s.boostTimeAccumulator := by
  simp only [buttonEdge]
  repeat' split
  all_goals first | rfl | simp

@[simp] theorem buttonEdge_cooldownReady (s : St) (now : Nat) (r : Bool) :
    (buttonEdge s now r).cooldownReady = s.cooldownReady := by
  simp only [buttonEdge]
  repeat' split
  all_goals first | rfl | simp

@[simp] theorem buttonEdge_lastBoostUpdate (s : St) (now : Nat) (r : Bool) :
    (buttonEdge s now r).lastBoostUpdate = s.lastBoostUpdate := by
  simp only [buttonEdge]
  repeat' split
  all_goals first | rfl | simp

@[simp] theorem buttonEdge_cooling (s : St) (now : Nat) (r : Bool) :
    (buttonEdge s now r).cooling = s.cooling := by
  simp only [buttonEdge]
  repeat' split
  all_goals first | rfl | simp

@[simp] theorem buttonEdge_cooldownStart (s : St) (now : Nat) (r : Bool) :
    (buttonEdge s now r).cooldownStart = s.cooldownStart := by
  simp only [buttonEdge]
  repeat' split
  all_goals first | rfl | simp

@[simp] theorem buttonEdge_lastBoost (s : St) (now : Nat) (r : Bool) :
    (buttonEdge s now r).lastBoost = s.lastBoost := by
  simp only [buttonEdge]
  repeat' split
  all_goals first | rfl | simp

@[simp] theorem buttonEdge_blinkLog (s : St) (now : Nat) (r : Bool) :
    (buttonEdge s now r).blinkLog = s.blinkLog := by
  simp only [buttonEdge]
  repeat' split
  all_goals first | rfl | simp

@[simp] theorem buttonEdge_refillRecentlyDetected (s : St) (now : Nat) (r : Bool) :
    (buttonEdge s now r).refillRecentlyDetected = s.refillRecentlyDetected := by
  simp only [buttonEdge]
  repeat' split
  all_goals first | rfl | simp

@[simp] theorem buttonEdge_refillDetectionTime (s : St) (now : Nat) (r : Bool) :
    (buttonEdge s now r).refillDetectionTime = s.refillDetectionTime := by
  simp only [buttonEdge]
  repeat' split
  all_goals first | rfl | simp

@[simp] theorem buttonEdge_lowWaterWarningActive (s : St) (now : Nat) (r : Bool) :
    (buttonEdge s now r).lowWaterWarningActive = s.lowWaterWarningActive := by
  simp only [buttonEdge]
  repeat' split
  all_goals first | rfl | simp

@[simp] theorem buttonEdge_lowWaterWarningStart (s : St) (now : Nat) (r : Bool) :
    (buttonEdge s now r).lowWaterWarningStart = s.lowWaterWarningStart := by
  simp only [buttonEdge]
  repeat' split
  all_goals first | rfl | simp

@[simp] theorem holdCheck_boostTimeAccumulator (s : St) (now : Nat) :
    (holdCheck s now).boostTimeAccumulator = s.boostTimeAccumulator := by
  simp only [holdCheck]
  repeat' split
  all_goals first | rfl | simp

@[simp] theorem holdCheck_cooldownReady (s : St) (now : Nat) :
    (holdCheck s now).cooldownReady = s.cooldownReady := by
  simp only [holdCheck]
  repeat' split
  all_goals first | rfl | simp

@[simp] theorem holdCheck_lastBoostUpdate (s : St) (now : Nat) :
    (holdCheck s now).lastBoostUpdate = s.lastBoostUpdate := by
  simp only [holdCheck]
  repeat' split
  all_goals first | rfl | simp

@[simp] theorem holdCheck_cooling (s : St) (now : Nat) :
    (holdCheck s now).cooling = s.cooling := by
  simp only [holdCheck]
  repeat' split
  all_goals first | rfl | simp

@[simp] theorem holdCheck_cooldownStart (s : St) (now : Nat) :
    (holdCheck s now).cooldownStart = s.cooldownStart := by
  simp only [holdCheck]
  repeat' split
  all_goals first | rfl | simp

@[simp] theorem holdCheck_lastBoost (s : St) (now : Nat) :
    (holdCheck s now).lastBoost = s.lastBoost := by
  simp only [holdCheck]
  repeat' split
  all_goals first | rfl | simp

@[simp] theorem holdCheck_blinkLog (s : St) (now : Nat) :
    (holdCheck s now).blinkLog = s.blinkLog := by
  simp only [holdCheck]
  repeat' split
  all_goals first | rfl | simp

@[simp] theorem holdCheck_refillRecentlyDetected (s : St) (now : Nat) :
    (holdCheck s now).refillRecentlyDetected = s.refillRecentlyDetected := by
  simp only [holdCheck]
  repeat' split
  all_goals first | rfl | simp

@[simp] theorem holdCheck_refillDetectionTime (s : St) (now : Nat) :
    (holdCheck s now).refillDetectionTime = s.refillDetectionTime := by
  simp only [holdCheck]
  repeat' split
  all_goals first | rfl | simp

@[simp] theorem holdCheck_lowWaterWarningActive (s : St) (now : Nat) :
    (holdCheck s now).lowWaterWarningActive = s.lowWaterWarningActive := by
  simp only [holdCheck]
  repeat' split
  all_goals first | rfl | simp

@[simp] theorem holdCheck_lowWaterWarningStart (s : St) (now : Nat) :
    (holdCheck s now).lowWaterWarningStart = s.lowWaterWarningStart := by
  simp only [holdCheck]
  repeat' split
  all_goals first | rfl | simp

@[simp] theorem clickResolution_boostTimeAccumulator (s : St) (now : Nat) :
    (clickResolution s now).boostTimeAccumulator = s.boostTimeAccumulator := by
  simp only [clickResolution]
  repeat' split
  all_goals first | rfl | simp

@[simp] theorem clickResolution_cooldownReady (s : St) (now : Nat) :
    (clickResolution s now).cooldownReady = s.cooldownReady := by
  simp only [clickResolution]
  repeat' split
  all_goals first | rfl | simp

@[simp] theorem clickResolution_lastBoostUpdate (s : St) (now : Nat) :
    (clickResolution s now).lastBoostUpdate = s.lastBoostUpdate := by
  simp only [clickResolution]
  repeat' split
  all_goals first | rfl | simp

@[simp] theorem clickResolution_cooling (s : St) (now : Nat) :
    (clickResolution s now).cooling = s.cooling := by
  simp only [clickResolution]
  repeat' split
  all_goals first | rfl | simp

@[simp] theorem clickResolution_cooldownStart (s : St) (now : Nat) :
    (clickResolution s now).cooldownStart = s.cooldownStart := by
  simp only [clickResolution]
  repeat' split
  all_goals first | rfl | simp

@[simp] theorem clickResolution_lastBoost (s : St) (now : Nat) :
    (clickResolution s now).lastBoost = s.lastBoost := by
  simp only [clickResolution]
  repeat' split
  all_goals first | rfl | simp

@[simp] theorem clickResolution_blinkLog (s : St) (now : Nat) :
    (clickResolution s now).blinkLog = s.blinkLog := by
  simp only [clickResolution]
  repeat' split
  all_goals first | rfl | simp

@[simp] theorem clickResolution_refillRecentlyDetected (s : St) (now : Nat) :
    (clickResolution s now).refillRecentlyDetected = s.refillRecentlyDetected := by
  simp only [clickResolution]
  repeat' split
  all_goals first | rfl | simp

@[simp] theorem clickResolution_refillDetectionTime (s : St) (now : Nat) :
    (clickResolution s now).refillDetectionTime = s.refillDetectionTime := by
  simp only [clickResolution]
  repeat' split
  all_goals first | rfl | simp

@[simp] theorem clickResolution_lowWaterWarningActive (s : St) (now : Nat) :
    (clickResolution s now).lowWaterWarningActive = s.lowWaterWarningActive := by
  simp only [clickResolution]
  repeat' split
  all_goals first | rfl | simp

@[simp] theorem clickResolution_lowWaterWarningStart (s : St) (now : Nat) :
    (clickResolution s now).lowWaterWarningStart = s.lowWaterWarningStart := by
  simp only [clickResolution]
  repeat' split
  all_goals first | rfl | simp

@[simp] theorem handleButton_boostTimeAccumulator (s : St) (now : Nat) (r : Bool) :
    (handleButton s now r).boostTimeAccumulator = s.boostTimeAccumulator := by
  simp only [handleButton]
  repeat' split
  all_goals first | rfl | simp

@[simp] theorem handleButton_cooldownReady (s : St) (now : Nat) (r : Bool) :
    (handleButton s now r).cooldownReady = s.cooldownReady := by
  simp only [handleButton]
  repeat' split
  all_goals first | rfl | simp

@[simp] theorem handleButton_lastBoostUpdate (s : St) (now : Nat) (r : Bool) :
    (handleButton s now r).lastBoostUpdate = s.lastBoostUpdate := by
  simp only [handleButton]
  repeat' split
  all_goals first | rfl | simp

@[simp] theorem handleButton_cooling (s : St) (now : Nat) (r : Bool) :
    (handleButton s now r).cooling = s.cooling := by
  simp only [handleButton]
  repeat' split
  all_goals first | rfl | simp

@[simp] theorem handleButton_cooldownStart (s : St) (now : Nat) (r : Bool) :
    (handleButton s now r).cooldownStart = s.cooldownStart := by
  simp only [handleButton]
  repeat' split
  all_goals first | rfl | simp

@[simp] theorem handleButton_lastBoost (s : St) (now : Nat) (r : Bool) :
    (handleButton s now r).lastBoost = s.lastBoost := by
  simp only [handleButton]
  repeat' split
  all_goals first | rfl | simp

@[simp] theorem handleButton_blinkLog (s : St) (now : Nat) (r : Bool) :
    (handleButton s now r).blinkLog = s.blinkLog := by
  simp only [handleButton]
  repeat' split
  all_goals first | rfl | simp

@[simp] theorem handleButton_refillRecentlyDetected (s : St) (now : Nat) (r : Bool) :
    (handleButton s now r).refillRecentlyDetected = s.refillRecentlyDetected := by
  simp only [handleButton]
  repeat' split
  all_goals first | rfl | simp

@[simp] theorem handleButton_refillDetectionTime (s : St) (now : Nat) (r : Bool) :
    (handleButton s now r).refillDetectionTime = s.refillDetectionTime := by
  simp only [handleButton]
  repeat' split
  all_goals first | rfl | simp

@[simp] theorem handleButton_lowWaterWarningActive (s : St) (now : Nat) (r : Bool) :
    (handleButton s now r).lowWaterWarningActive = s.lowWaterWarningActive := by
  simp only [handleButton]
  repeat' split
  all_goals first | rfl | simp

@[simp] theorem handleButton_lowWaterWarningStart (s : St) (now : Nat) (r : Bool) :
    (handleButton s now r).lowWaterWarningStart = s.lowWaterWarningStart := by
  simp only [handleButton]
  repeat' split
  all_goals first | rfl | simp

@[simp] theorem loopPre_boostTimeAccumulator (s : St) (i : Inp) :
    (loopPre s i).boostTimeAccumulator = s.boostTimeAccumulator := by
  simp only [loopPre]
  repeat' split
  all_goals first | rfl | simp

@[simp] theorem loopPre_cooldownReady (s : St) (i : Inp) :
    (loopPre s i).cooldownReady = s.cooldownReady := by
  simp only [loopPre]
  repeat' split
  all_goals first | rfl | simp

@[simp] theorem loopPre_lastBoostUpdate (s : St) (i : Inp) :
    (loopPre s i).lastBoostUpdate = s.lastBoostUpdate := by
  simp only [loopPre]
  repeat' split
  all_goals first | rfl | simp

@[simp] theorem loopPre_cooling (s : St) (i : Inp) :
    (loopPre s i).cooling = s.cooling := by
  simp only [loopPre]
  repeat' split
  all_goals first | rfl | simp

@[simp] theorem loopPre_cooldownStart (s : St) (i : Inp) :
    (loopPre s i).cooldownStart = s.cooldownStart := by
  simp only [loopPre]
  repeat' split
  all_goals first | rfl | simp

@[simp] theorem loopPre_lastBoost (s : St) (i : Inp) :
    (loopPre s i).lastBoost = s.lastBoost := by
  simp only [loopPre]
  repeat' split
  all_goals first | rfl | simp

@[simp] theorem loopPre_blinkLog (s : St) (i : Inp) :
    (loopPre s i).blinkLog = s.blinkLog := by
  simp only [loopPre]
  repeat' split
  all_goals first | rfl | simp

@[simp] theorem loopPre_refillRecentlyDetected (s : St) (i : Inp) :
    (loopPre s i).refillRecentlyDetected = s.refillRecentlyDetected := by
  simp only [loopPre]
  repeat' split
  all_goals first | rfl | simp

@[simp] theorem loopPre_refillDetectionTime (s : St) (i : Inp) :
    (loopPre s i).refillDetectionTime = s.refillDetectionTime := by
  simp only [loopPre]
  repeat' split
  all_goals first | rfl | simp

@[simp] theorem loopPre_lowWaterWarningActive (s : St) (i : Inp) :
    (loopPre s i).lowWaterWarningActive = s.lowWaterWarningActive := by
  simp only [loopPre]
  repeat' split
  all_goals first | rfl | simp

@[simp] theorem loopPre_lowWaterWarningStart (s : St) (i : Inp) :
    (loopPre s i).lowWaterWarningStart = s.lowWaterWarningStart := by
  simp only [loopPre]
  repeat' split
  all_goals first | rfl | simp

@[simp] theorem warningEntry_boostTimeAccumulator (s : St) (now : Nat) :
    (warningEntry s now).boostTimeAccumulator = s.boostTimeAccumulator := by
  simp only [warningEntry]
  repeat' split
  all_goals first | rfl | simp

@[simp] theorem warningEntry_cooldownReady (s : St) (now : Nat) :
    (warningEntry s now).cooldownReady = s.cooldownReady := by
  simp only [warningEntry]
  repeat' split
  all_goals first | rfl | simp

@[simp] theorem warningEntry_lastBoostUpdate (s : St) (now : Nat) :
    (warningEntry s now).lastBoostUpdate = s.lastBoostUpdate := by
  simp only [warningEntry]
  repeat' split
  all_goals first | rfl | simp

@[simp] theorem warningEntry_cooling (s : St) (now : Nat) :
    (warningEntry s now).cooling = s.cooling := by
  simp only [warningEntry]
  repeat' split
  all_goals first | rfl | simp

@[simp] theorem warningEntry_cooldownStart (s : St) (now : Nat) :
    (warningEntry s now).cooldownStart = s.cooldownStart := by
  simp only [warningEntry]
  repeat' split
  all_goals first | rfl | simp

@[simp] theorem warningEntry_lastBoost (s : St) (now : Nat) :
    (warningEntry s now).lastBoost = s.lastBoost := by
  simp only [warningEntry]
  repeat' split
  all_goals first | rfl | simp

@[simp] theorem warningEntry_blinkLog (s : St) (now : Nat) :
    (warningEntry s now).blinkLog = s.blinkLog := by
  simp only [warningEntry]
  repeat' split
  all_goals first | rfl | simp

@[simp] theorem warningEntry_refillRecentlyDetected (s : St) (now : Nat) :
    (warningEntry s now).refillRecentlyDetected = s.refillRecentlyDetected := by
  simp only [warningEntry]
  repeat' split
  all_goals first | rfl | simp

@[simp] theorem warningEntry_refillDetectionTime (s : St) (now : Nat) :
    (warningEntry s now).refillDetectionTime = s.refillDetectionTime := by
  simp only [warningEntry]
  repeat' split
  all_goals first | rfl | simp

@[simp] theorem warningBlock_boostTimeAccumulator (s : St) (now : Nat) :
    (warningBlock s now).boostTimeAccumulator = s.boostTimeAccumulator := by
  simp only [warningBlock]
  repeat' split
  all_goals first | rfl | simp

@[simp] theorem warningBlock_cooldownReady (s : St) (now : Nat) :
    (warningBlock s now).cooldownReady = s.cooldownReady := by
  simp only [warningBlock]
  repeat' split
  all_goals first | rfl | simp

@[simp] theorem warningBlock_lastBoostUpdate (s : St) (now : Nat) :
    (warningBlock s now).lastBoostUpdate = s.lastBoostUpdate := by
  simp only [warningBlock]
  repeat' split
  all_goals first | rfl | simp

@[simp] theorem warningBlock_cooling (s : St) (now : Nat) :
    (warningBlock s now).cooling = s.cooling := by
  simp only [warningBlock]
  repeat' split
  all_goals first | rfl | simp

@[simp] theorem warningBlock_cooldownStart (s : St) (now : Nat) :
    (warningBlock s now).cooldownStart = s.cooldownStart := by
  simp only [warningBlock]
  repeat' split
  all_goals first | rfl | simp

@[simp] theorem warningBlock_lastBoost (s : St) (now : Nat) :
    (warningBlock s now).lastBoost = s.lastBoost := by
  simp only [warningBlock]
  repeat' split
  all_goals first | rfl | simp

@[simp] theorem warningBlock_blinkLog (s : St) (now : Nat) :
    (warningBlock s now).blinkLog = s.blinkLog := by
  simp only [warningBlock]
  repeat' split
  all_goals first | rfl | simp

@[simp] theorem warningBlock_refillRecentlyDetected (s : St) (now : Nat) :
    (warningBlock s now).refillRecentlyDetected = s.refillRecentlyDetected := by
  simp only [warningBlock]
  repeat' split
  all_goals first | rfl | simp

@[simp] theorem warningBlock_refillDetectionTime (s : St) (now : Nat) :
    (warningBlock s now).refillDetectionTime = s.refillDetectionTime := by
  simp only [warningBlock]
  repeat' split
  all_goals first | rfl | simp

@[simp] theorem warningBlock_lowWaterWarningStart (s : St) (now : Nat) :
    (warningBlock s now).lowWaterWarningStart = s.lowWaterWarningStart := by
  simp only [warningBlock]
  repeat' split
  all_goals first | rfl | simp

@[simp] theorem warningBlock_currentMode (s : St) (now : Nat) :
    (warningBlock s now).currentMode = s.currentMode := by
  simp only [warningBlock]
  repeat' split
  all_goals first | rfl | simp

@[simp] theorem runBoostMode_boostTimeAccumulator (s : St) (now : Nat) (b : Bool) :
    (runBoostMode s now b).boostTimeAccumulator = s.boostTimeAccumulator := by
  simp only [runBoostMode]
  repeat' split
  all_goals first | rfl | simp

@[simp] theorem runBoostMode_cooldownReady (s : St) (now : Nat) (b : Bool) :
    (runBoostMode s now b).cooldownReady = s.cooldownReady := by
  simp only [runBoostMode]
  repeat' split
  all_goals first | rfl | simp

@[simp] theorem runBoostMode_lastBoostUpdate (s : St) (now : Nat) (b : Bool) :
    (runBoostMode s now b).lastBoostUpdate = s.lastBoostUpdate := by
  simp only [runBoostMode]
  repeat' split
  all_goals first | rfl | simp

@[simp] theorem runBoostMode_cooling (s : St) (now : Nat) (b : Bool) :
    (runBoostMode s now b).cooling = s.cooling := by
  simp only [runBoostMode]
  repeat' split
  all_goals first | rfl | simp

@[simp] theorem runBoostMode_cooldownStart (s : St) (now : Nat) (b : Bool) :
    (runBoostMode s now b).cooldownStart = s.cooldownStart := by
  simp only [runBoostMode]
  repeat' split
  all_goals first | rfl | simp

@[simp] theorem runBoostMode_lastBoost (s : St) (now : Nat) (b : Bool) :
    (runBoostMode s now b).lastBoost = s.lastBoost := by
  simp only [runBoostMode]
  repeat' split
  all_goals first | rfl | simp

@[simp] theorem runBoostMode_blinkLog (s : St) (now : Nat) (b : Bool) :
    (runBoostMode s now b).blinkLog = s.blinkLog := by
  simp only [runBoostMode]
  repeat' split
  all_goals first | rfl | simp

@[simp] theorem runBoostMode_refillRecentlyDetected (s : St) (now : Nat) (b : Bool) :
    (runBoostMode s now b).refillRecentlyDetected = s.refillRecentlyDetected := by
  simp only [runBoostMode]
  repeat' split
  all_goals first | rfl | simp

@[simp] theorem runBoostMode_refillDetectionTime (s : St) (now : Nat) (b : Bool) :
    (runBoostMode s now b).refillDetectionTime = s.refillDetectionTime := by
  simp only [runBoostMode]
  repeat' split
  all_goals first | rfl | simp

@[simp] theorem runBoostMode_lowWaterWarningActive (s : St) (now : Nat) (b : Bool) :
    (runBoostMode s now b).lowWaterWarningActive = s.lowWaterWarningActive := by
  simp only [runBoostMode]
  repeat' split
  all_goals first | rfl | simp

@[simp] theorem runBoostMode_lowWaterWarningStart (s : St) (now : Nat) (b : Bool) :
    (runBoostMode s now b).lowWaterWarningStart = s.lowWaterWarningStart := by
  simp only [runBoostMode]
  repeat' split
  all_goals first | rfl | simp

@[simp] theorem runBoostMode_currentMode (s : St) (now : Nat) (b : Bool) :
    (runBoostMode s now b).currentMode = s.currentMode := by
  simp only [runBoostMode]
  repeat' split
  all_goals first | rfl | simp

@[simp] theorem runIntervalMode_boostTimeAccumulator (s : St) (now : Nat) :
    (runIntervalMode s now).boostTimeAccumulator = s.boostTimeAccumulator := by
  simp only [runIntervalMode]
  repeat' split
  all_goals first | rfl | simp

@[simp] theorem runIntervalMode_cooldownReady (s : St) (now : Nat) :
    (runIntervalMode s now).cooldownReady = s.cooldownReady := by
  simp only [runIntervalMode]
  repeat' split
  all_goals first | rfl | simp

@[simp] theorem runIntervalMode_lastBoostUpdate (s : St) (now : Nat) :
    (runIntervalMode s now).lastBoostUpdate = s.lastBoostUpdate := by
  simp only [runIntervalMode]
  repeat' split
  all_goals first | rfl | simp

@[simp] theorem runIntervalMode_cooling (s : St) (now : Nat) :
    (runIntervalMode s now).cooling = s.cooling := by
  simp only [runIntervalMode]
  repeat' split
  all_goals first | rfl | simp

@[simp] theorem runIntervalMode_cooldownStart (s : St) (now : Nat) :
    (runIntervalMode s now).cooldownStart = s.cooldownStart := by
  simp only [runIntervalMode]
  repeat' split
  all_goals first | rfl | simp

@[simp] theorem runIntervalMode_lastBoost (s : St) (now : Nat) :
    (runIntervalMode s now).lastBoost = s.lastBoost := by
  simp only [runIntervalMode]
  repeat' split
  all_goals first | rfl | simp

@[simp] theorem runIntervalMode_blinkLog (s : St) (now : Nat) :
    (runIntervalMode s now).blinkLog = s.blinkLog := by
  simp only [runIntervalMode]
  repeat' split
  all_goals first | rfl | simp

@[simp] theorem runIntervalMode_refillRecentlyDetected (s : St) (now : Nat) :
    (runIntervalMode s now).refillRecentlyDetected = s.refillRecentlyDetected := by
  simp only [runIntervalMode]
  repeat' split
  all_goals first | rfl | simp

@[simp] theorem runIntervalMode_refillDetectionTime (s : St) (now : Nat) :
    (runIntervalMode s now).refillDetectionTime = s.refillDetectionTime := by
  simp only [runIntervalMode]
  repeat' split
  all_goals first | rfl | simp

@[simp] theorem runIntervalMode_lowWaterWarningActive (s : St) (now : Nat) :
    (runIntervalMode s now).lowWaterWarningActive = s.lowWaterWarningActive := by
  simp only [runIntervalMode]
  repeat' split
  all_goals first | rfl | simp

@[simp] theorem runIntervalMode_lowWaterWarningStart (s : St) (now : Nat) :
    (runIntervalMode s now).lowWaterWarningStart = s.lowWaterWarningStart := by
  simp only [runIntervalMode]
  repeat' split
  all_goals first | rfl | simp

@[simp] theorem runIntervalMode_currentMode (s : St) (now : Nat) :
    (runIntervalMode s now).currentMode = s.currentMode := by
  simp only [runIntervalMode]
  repeat' split
  all_goals first | rfl | simp

@[simp] theorem sprayPhase_boostTimeAccumulator (s : St) (i : Inp) :
    (sprayPhase s i).boostTimeAccumulator = s.boostTimeAccumulator := by
  simp only [sprayPhase]
  repeat' split
  all_goals first | rfl | simp

@[simp] theorem sprayPhase_cooldownReady (s : St) (i : Inp) :
    (sprayPhase s i).cooldownReady = s.cooldownReady := by
  simp only [sprayPhase]
  repeat' split
  all_goals first | rfl | simp

@[simp] theorem sprayPhase_lastBoostUpdate (s : St) (i : Inp) :
    (sprayPhase s i).lastBoostUpdate = s.lastBoostUpdate := by
  simp only [sprayPhase]
  repeat' split
  all_goals first | rfl | simp

@[simp] theorem sprayPhase_cooling (s : St) (i : Inp) :
    (sprayPhase s i).cooling = s.cooling := by
  simp only [sprayPhase]
  repeat' split
  all_goals first | rfl | simp

@[simp] theorem sprayPhase_cooldownStart (s : St) (i : Inp) :
    (sprayPhase s i).cooldownStart = s.cooldownStart := by
  simp only [sprayPhase]
  repeat' split
  all_goals first | rfl | simp

@[simp] theorem sprayPhase_lastBoost (s : St) (i : Inp) :
    (sprayPhase s i).lastBoost = s.lastBoost := by
  simp only [sprayPhase]
  repeat' split
  all_goals first | rfl | simp

@[simp] theorem sprayPhase_blinkLog (s : St) (i : Inp) :
    (sprayPhase s i).blinkLog = s.blinkLog := by
  simp only [sprayPhase]
  repeat' split
  all_goals first | rfl | simp

@[simp] theorem sprayPhase_refillRecentlyDetected (s : St) (i : Inp) :
    (sprayPhase s i).refillRecentlyDetected = s.refillRecentlyDetected := by
  simp only [sprayPhase]
  repeat' split
  all_goals first | rfl | simp

@[simp] theorem sprayPhase_refillDetectionTime (s : St) (i : Inp) :
    (sprayPhase s i).refillDetectionTime = s.refillDetectionTime := by
  simp only [sprayPhase]
  repeat' split
  all_goals first | rfl | simp

@[simp] theorem sprayPhase_lowWaterWarningActive (s : St) (i : Inp) :
    (sprayPhase s i).lowWaterWarningActive = s.lowWaterWarningActive := by
  simp only [sprayPhase]
  repeat' split
  all_goals first | rfl | simp

@[simp] theorem sprayPhase_lowWaterWarningStart (s : St) (i : Inp) :
    (sprayPhase s i).lowWaterWarningStart = s.lowWaterWarningStart := by
  simp only [sprayPhase]
  repeat' split
  all_goals first | rfl | simp

@[simp] theorem sprayPhase_currentMode (s : St) (i : Inp) :
    (sprayPhase s i).currentMode = s.currentMode := by
  simp only [sprayPhase]
  repeat' split
  all_goals first | rfl | simp

@[simp] theorem trackBoostDuration_blinkLog (s : St) (b : Bool) (now : Nat) :
    (trackBoostDuration s b now).blinkLog = s.blinkLog := by
  simp only [trackBoostDuration]
  repeat' split
  all_goals first | rfl | simp

@[simp] theorem trackBoostDuration_refillRecentlyDetected (s : St) (b : Bool) (now : Nat) :
    (trackBoostDuration s b now).refillRecentlyDetected = s.refillRecentlyDetected := by
  simp only [trackBoostDuration]
  repeat' split
  all_goals first | rfl | simp

@[simp] theorem trackBoostDuration_refillDetectionTime (s : St) (b : Bool) (now : Nat) :
    (trackBoostDuration s b now).refillDetectionTime = s.refillDetectionTime := by
  simp only [trackBoostDuration]
  repeat' split
  all_goals first | rfl | simp

@[simp] theorem trackBoostDuration_lowWaterWarningActive (s : St) (b : Bool) (now : Nat) :
    (trackBoostDuration s b now).lowWaterWarningActive = s.lowWaterWarningActive := by
  simp only [trackBoostDuration]
  repeat' split
  all_goals first | rfl | simp

@[simp] theorem trackBoostDuration_lowWaterWarningStart (s : St) (b : Bool) (now : Nat) :
    (trackBoostDuration s b now).lowWaterWarningStart = s.lowWaterWarningStart := by
  simp only [trackBoostDuration]
  repeat' split
  all_goals first | rfl | simp

@[simp] theorem trackBoostDuration_currentMode (s : St) (b : Bool) (now : Nat) :
    (trackBoostDuration s b now).currentMode = s.currentMode := by
  simp only [trackBoostDuration]
  repeat' split
  all_goals first | rfl | simp

@[simp] theorem triggerCooldownSpray_blinkLog (s : St) (now : Nat) :
    (triggerCooldownSpray s now).blinkLog = s.blinkLog := by
  simp only [triggerCooldownSpray]
  repeat' split
  all_goals first | rfl | simp

@[simp] theorem triggerCooldownSpray_refillRecentlyDetected (s : St) (now : Nat) :
    (triggerCooldownSpray s now).refillRecentlyDetected = s.refillRecentlyDetected := by
  simp only [triggerCooldownSpray]
  repeat' split
  all_goals first | rfl | simp

@[simp] theorem triggerCooldownSpray_refillDetectionTime (s : St) (now : Nat) :
    (triggerCooldownSpray s now).refillDetectionTime = s.refillDetectionTime := by
  simp only [triggerCooldownSpray]
  repeat' split
  all_goals first | rfl | simp

@[simp] theorem triggerCooldownSpray_lowWaterWarningActive (s : St) (now : Nat) :
    (triggerCooldownSpray s now).lowWaterWarningActive = s.lowWaterWarningActive := by
  simp only [triggerCooldownSpray]
  repeat' split
  all_goals first | rfl | simp

@[simp] theorem triggerCooldownSpray_lowWaterWarningStart (s : St) (now : Nat) :
    (triggerCooldownSpray s now).lowWaterWarningStart = s.lowWaterWarningStart := by
  simp only [triggerCooldownSpray]
  repeat' split
  all_goals first | rfl | simp

@[simp] theorem triggerCooldownSpray_currentMode (s : St) (now : Nat) :
    (triggerCooldownSpray s now).currentMode = s.currentMode := by
  simp only [triggerCooldownSpray]
  repeat' split
  all_goals first | rfl | simp

@[simp] theorem loopMain_blinkLog (s : St) (i : Inp) :
    (loopMain s i).blinkLog = s.blinkLog := by
  simp only [loopMain]
  repeat' split
  all_goals first | rfl | simp

@[simp] theorem loopMain_refillRecentlyDetected (s : St) (i : Inp) :
    (loopMain s i).refillRecentlyDetected = s.refillRecentlyDetected := by
  simp only [loopMain]
  repeat' split
  all_goals first | rfl | simp

@[simp] theorem loopMain_refillDetectionTime (s : St) (i : Inp) :
    (loopMain s i).refillDetectionTime = s.refillDetectionTime := by
  simp only [loopMain]
  repeat' split
  all_goals first | rfl | simp

@[simp] theorem loopStep_blinkLog (s : St) (i : Inp) :
    (loopStep s i).blinkLog = s.blinkLog := by
  simp only [loopStep]
  repeat' split
  all_goals first | rfl | simp

@[simp] theorem loopStep_refillRecentlyDetected (s : St) (i : Inp) :
    (loopStep s i).refillRecentlyDetected = s.refillRecentlyDetected := by
  simp only [loopStep]
  repeat' split
  all_goals first | rfl | simp

@[simp] theorem loopStep_refillDetectionTime (s : St) (i : Inp) :
    (loopStep s i).refillDetectionTime = s.refillDetectionTime := by
  simp only [loopStep]
  repeat' split
  all_goals first | rfl | simp

/-!  Additional frame lemmas needed by the gesture-classifier proofs.  -/

@[simp] theorem stopSpray_buttonPressStart (s : St) :
    (stopSpray s).buttonPressStart = s.buttonPressStart := by
  simp only [stopSpray]
  repeat' split
  all_goals first | rfl | simp

@[simp] theorem stopSpray_buttonHeld (s : St) :
    (stopSpray s).buttonHeld = s.buttonHeld := by
  simp only [stopSpray]
  repeat' split
  all_goals first | rfl | simp

@[simp] theorem stopSpray_waitingForSecondClick (s : St) :
    (stopSpray s).waitingForSecondClick = s.waitingForSecondClick := by
  simp only [stopSpray]
  repeat' split
  all_goals first | rfl | simp

@[simp] theorem stopSpray_lastClickTime (s : St) :
    (stopSpray s).lastClickTime = s.lastClickTime := by
  simp only [stopSpray]
  repeat' split
  all_goals first | rfl | simp

@[simp] theorem stopSpray_clickCount (s : St) :
    (stopSpray s).clickCount = s.clickCount := by
  simp only [stopSpray]
  repeat' split
  all_goals first | rfl | simp

@[simp] theorem stopSpray_lastDebounceTime (s : St) :
    (stopSpray s).lastDebounceTime = s.lastDebounceTime := by
  simp only [stopSpray]
  repeat' split
  all_goals first | rfl | simp

@[simp] theorem stopSpray_lastRawState (s : St) :
    (stopSpray s).lastRawState = s.lastRawState := by
  simp only [stopSpray]
  repeat' split
  all_goals first | rfl | simp

@[simp] theorem stopSpray_debouncedState (s : St) :
    (stopSpray s).debouncedState = s.debouncedState := by
  simp only [stopSpray]
  repeat' split
  all_goals first | rfl | simp

@[simp] theorem stopSpray_lastSavedMode (s : St) :
    (stopSpray s).lastSavedMode = s.lastSavedMode := by
  simp only [stopSpray]
  repeat' split
  all_goals first | rfl | simp

@[simp] theorem stopSpray_lowWater (s : St) :
    (stopSpray s).lowWater = s.lowWater := by
  simp only [stopSpray]
  repeat' split
  all_goals first | rfl | simp

@[simp] theorem stopSpray_startupDone (s : St) :
    (stopSpray s).startupDone = s.startupDone := by
  simp only [stopSpray]
  repeat' split
  all_goals first | rfl | simp

@[simp] theorem stopSpray_storedByte (s : St) :
    (stopSpray s).storedByte = s.storedByte := by
  simp only [stopSpray]
  repeat' split
  all_goals first | rfl | simp

@[simp] theorem stopSpray_writeCount (s : St) :
    (stopSpray s).writeCount = s.writeCount := by
  simp only [stopSpray]
  repeat' split
  all_goals first | rfl | simp

@[simp] theorem stopSpray_sprayStartTime (s : St) :
    (stopSpray s).sprayStartTime = s.sprayStartTime := by
  simp only [stopSpray]
  repeat' split
  all_goals first | rfl | simp

@[simp] theorem stopSpray_lastSprayTime (s : St) :
    (stopSpray s).lastSprayTime = s.lastSprayTime := by
  simp only [stopSpray]
  repeat' split
  all_goals first | rfl | simp

@[simp] theorem startSpray_buttonPressStart (s : St) (now : Nat) :
    (startSpray s now).buttonPressStart = s.buttonPressStart := by
  simp only [startSpray]
  repeat' split
  all_goals first | rfl | simp

@[simp] theorem startSpray_buttonHeld (s : St) (now : Nat) :
    (startSpray s now).buttonHeld = s.buttonHeld := by
  simp only [startSpray]
  repeat' split
  all_goals first | rfl | simp

@[simp] theorem startSpray_waitingForSecondClick (s : St) (now : Nat) :
    (startSpray s now).waitingForSecondClick = s.waitingForSecondClick := by
  simp only [startSpray]
  repeat' split
  all_goals first | rfl | simp

@[simp] theorem startSpray_lastClickTime (s : St) (now : Nat) :
    (startSpray s now).lastClickTime = s.lastClickTime := by
  simp only [startSpray]
  repeat' split
  all_goals first | rfl | simp

@[simp] theorem startSpray_clickCount (s : St) (now : Nat) :
    (startSpray s now).clickCount = s.clickCount := by
  simp only [startSpray]
  repeat' split
  all_goals first | rfl | simp

@[simp] theorem startSpray_lastDebounceTime (s : St) (now : Nat) :
    (startSpray s now).lastDebounceTime = s.lastDebounceTime := by
  simp only [startSpray]
  repeat' split
  all_goals first | rfl | simp

@[simp] theorem startSpray_lastRawState (s : St) (now : Nat) :
    (startSpray s now).lastRawState = s.lastRawState := by
  simp only [startSpray]
  repeat' split
  all_goals first | rfl | simp

@[simp] theorem startSpray_debouncedState (s : St) (now : Nat) :
    (startSpray s now).debouncedState = s.debouncedState := by
  simp only [startSpray]
  repeat' split
  all_goals first | rfl | simp

@[simp] theorem startSpray_lastSavedMode (s : St) (now : Nat) :
    (startSpray s now).lastSavedMode = s.lastSavedMode := by
  simp only [startSpray]
  repeat' split
  all_goals first | rfl | simp

@[simp] theorem startSpray_lowWater (s : St) (now : Nat) :
    (startSpray s now).lowWater = s.lowWater := by
  simp only [startSpray]
  repeat' split
  all_goals first | rfl | simp

@[simp] theorem startSpray_startupDone (s : St) (now : Nat) :
    (startSpray s now).startupDone = s.startupDone := by
  simp only [startSpray]
  repeat' split
  all_goals first | rfl | simp

@[simp] theorem startSpray_storedByte (s : St) (now : Nat) :
    (startSpray s now).storedByte = s.storedByte := by
  simp only [startSpray]
  repeat' split
  all_goals first | rfl | simp

@[simp] theorem startSpray_writeCount (s : St) (now : Nat) :
    (startSpray s now).writeCount = s.writeCount := by
  simp only [startSpray]
  repeat' split
  all_goals first | rfl | simp

@[simp] theorem saveModeIfNeeded_buttonPressStart (s : St) :
    (saveModeIfNeeded s).buttonPressStart = s.buttonPressStart := by
  simp only [saveModeIfNeeded]
  repeat' split
  all_goals first | rfl | simp

@[simp] theorem saveModeIfNeeded_buttonHeld (s : St) :
    (saveModeIfNeeded s).buttonHeld = s.buttonHeld := by
  simp only [saveModeIfNeeded]
  repeat' split
  all_goals first | rfl | simp

@[simp] theorem saveModeIfNeeded_waitingForSecondClick (s : St) :
    (saveModeIfNeeded s).waitingForSecondClick = s.waitingForSecondClick := by
  simp only [saveModeIfNeeded]
  repeat' split
  all_goals first | rfl | simp

@[simp] theorem saveModeIfNeeded_lastClickTime (s : St) :
    (saveModeIfNeeded s).lastClickTime = s.lastClickTime := by
  simp only [saveModeIfNeeded]
  repeat' split
  all_goals first | rfl | simp

@[simp] theorem saveModeIfNeeded_clickCount (s : St) :
    (saveModeIfNeeded s).clickCount = s.clickCount := by
  simp only [saveModeIfNeeded]
  repeat' split
  all_goals first | rfl | simp

@[simp] theorem saveModeIfNeeded_lastDebounceTime (s : St) :
    (saveModeIfNeeded s).lastDebounceTime = s.lastDebounceTime := by
  simp only [saveModeIfNeeded]
  repeat' split
  all_goals first | rfl | simp

@[simp] theorem saveModeIfNeeded_lastRawState (s : St) :
    (saveModeIfNeeded s).lastRawState = s.lastRawState := by
  simp only [saveModeIfNeeded]
  repeat' split
  all_goals first | rfl | simp

@[simp] theorem saveModeIfNeeded_debouncedState (s : St) :
    (saveModeIfNeeded s).debouncedState = s.debouncedState := by
  simp only [saveModeIfNeeded]
  repeat' split
  all_goals first | rfl | simp

@[simp] theorem saveModeIfNeeded_lowWater (s : St) :
    (saveModeIfNeeded s).lowWater = s.lowWater := by
  simp only [saveModeIfNeeded]
  repeat' split
  all_goals first | rfl | simp

@[simp] theorem saveModeIfNeeded_startupDone (s : St) :
    (saveModeIfNeeded s).startupDone = s.startupDone := by
  simp only [saveModeIfNeeded]
  repeat' split
  all_goals first | rfl | simp

@[simp] theorem saveModeIfNeeded_spraying (s : St) :
    (saveModeIfNeeded s).spraying = s.spraying := by
  simp only [saveModeIfNeeded]
  repeat' split
  all_goals first | rfl | simp

@[simp] theorem saveModeIfNeeded_sprayStartTime (s : St) :
    (saveModeIfNeeded s).sprayStartTime = s.sprayStartTime := by
  simp only [saveModeIfNeeded]
  repeat' split
  all_goals first | rfl | simp

@[simp] theorem saveModeIfNeeded_lastSprayTime (s : St) :
    (saveModeIfNeeded s).lastSprayTime = s.lastSprayTime := by
  simp only [saveModeIfNeeded]
  repeat' split
  all_goals first | rfl | simp

@[simp] theorem saveModeIfNeeded_led (s : St) :
    (saveModeIfNeeded s).led = s.led := by
  simp only [saveModeIfNeeded]
  repeat' split
  all_goals first | rfl | simp

@[simp] theorem saveModeIfNeeded_pump (s : St) :
    (saveModeIfNeeded s).pump = s.pump := by
  simp only [saveModeIfNeeded]
  repeat' split
  all_goals first | rfl | simp

@[simp] theorem startFlashPattern_buttonPressStart (s : St) (c i : Nat) :
    (startFlashPattern s c i).buttonPressStart = s.buttonPressStart := by
  simp only [startFlashPattern]
  repeat' split
  all_goals first | rfl | simp

@[simp] theorem startFlashPattern_buttonHeld (s : St) (c i : Nat) :
    (startFlashPattern s c i).buttonHeld = s.buttonHeld := by
  simp only [startFlashPattern]
  repeat' split
  all_goals first | rfl | simp

@[simp] theorem startFlashPattern_waitingForSecondClick (s : St) (c i : Nat) :
    (startFlashPattern s c i).waitingForSecondClick = s.waitingForSecondClick := by
  simp only [startFlashPattern]
  repeat' split
  all_goals first | rfl | simp

@[simp] theorem startFlashPattern_lastClickTime (s : St) (c i : Nat) :
    (startFlashPattern s c i).lastClickTime = s.lastClickTime := by
  simp only [startFlashPattern]
  repeat' split
  all_goals first | rfl | simp

@[simp] theorem startFlashPattern_clickCount (s : St) (c i : Nat) :
    (startFlashPattern s c i).clickCount = s.clickCount := by
  simp only [startFlashPattern]
  repeat' split
  all_goals first | rfl | simp

@[simp] theorem startFlashPattern_lastDebounceTime (s : St) (c i : Nat) :
    (startFlashPattern s c i).lastDebounceTime = s.lastDebounceTime := by
  simp only [startFlashPattern]
  repeat' split
  all_goals first | rfl | simp

@[simp] theorem startFlashPattern_lastRawState (s : St) (c i : Nat) :
    (startFlashPattern s c i).lastRawState = s.lastRawState := by
  simp only [startFlashPattern]
  repeat' split
  all_goals first | rfl | simp

@[simp] theorem startFlashPattern_debouncedState (s : St) (c i : Nat) :
    (startFlashPattern s c i).debouncedState = s.debouncedState := by
  simp only [startFlashPattern]
  repeat' split
  all_goals first | rfl | simp

@[simp] theorem startFlashPattern_lastSavedMode (s : St) (c i : Nat) :
    (startFlashPattern s c i).lastSavedMode = s.lastSavedMode := by
  simp only [startFlashPattern]
  repeat' split
  all_goals first | rfl | simp

@[simp] theorem startFlashPattern_lowWater (s : St) (c i : Nat) :
    (startFlashPattern s c i).lowWater = s.lowWater := by
  simp only [startFlashPattern]
  repeat' split
  all_goals first | rfl | simp

@[simp] theorem startFlashPattern_startupDone (s : St) (c i : Nat) :
    (startFlashPattern s c i).startupDone = s.startupDone := by
  simp only [startFlashPattern]
  repeat' split
  all_goals first | rfl | simp

@[simp] theorem startFlashPattern_spraying (s : St) (c i : Nat) :
    (startFlashPattern s c i).spraying = s.spraying := by
  simp only [startFlashPattern]
  repeat' split
  all_goals first | rfl | simp

@[simp] theorem startFlashPattern_storedByte (s : St) (c i : Nat) :
    (startFlashPattern s c i).storedByte = s.storedByte := by
  simp only [startFlashPattern]
  repeat' split
  all_goals first | rfl | simp

@[simp] theorem startFlashPattern_writeCount (s : St) (c i : Nat) :
    (startFlashPattern s c i).writeCount = s.writeCount := by
  simp only [startFlashPattern]
  repeat' split
  all_goals first | rfl | simp

@[simp] theorem startFlashPattern_sprayStartTime (s : St) (c i : Nat) :
    (startFlashPattern s c i).sprayStartTime = s.sprayStartTime := by
  simp only [startFlashPattern]
  repeat' split
  all_goals first | rfl | simp

@[simp] theorem startFlashPattern_lastSprayTime (s : St) (c i : Nat) :
    (startFlashPattern s c i).lastSprayTime = s.lastSprayTime := by
  simp only [startFlashPattern]
  repeat' split
  all_goals first | rfl | simp

@[simp] theorem flashLED_buttonPressStart (s : St) (now i : Nat) :
    (flashLED s now i).buttonPressStart = s.buttonPressStart := by
  simp only [flashLED]
  repeat' split
  all_goals first | rfl | simp

@[simp] theorem flashLED_buttonHeld (s : St) (now i : Nat) :
    (flashLED s now i).buttonHeld = s.buttonHeld := by
  simp only [flashLED]
  repeat' split
  all_goals first | rfl | simp

@[simp] theorem flashLED_waitingForSecondClick (s : St) (now i : Nat) :
    (flashLED s now i).waitingForSecondClick = s.waitingForSecondClick := by
  simp only [flashLED]
  repeat' split
  all_goals first | rfl | simp

@[simp] theorem flashLED_lastClickTime (s : St) (now i : Nat) :
    (flashLED s now i).lastClickTime = s.lastClickTime := by
  simp only [flashLED]
  repeat' split
  all_goals first | rfl | simp

@[simp] theorem flashLED_clickCount (s : St) (now i : Nat) :
    (flashLED s now i).clickCount = s.clickCount := by
  simp only [flashLED]
  repeat' split
  all_goals first | rfl | simp

@[simp] theorem flashLED_lastDebounceTime (s : St) (now i : Nat) :
    (flashLED s now i).lastDebounceTime = s.lastDebounceTime := by
  simp only [flashLED]
  repeat' split
  all_goals first | rfl | simp

@[simp] theorem flashLED_lastRawState (s : St) (now i : Nat) :
    (flashLED s now i).lastRawState = s.lastRawState := by
  simp only [flashLED]
  repeat' split
  all_goals first | rfl | simp

@[simp] theorem flashLED_debouncedState (s : St) (now i : Nat) :
    (flashLED s now i).debouncedState = s.debouncedState := by
  simp only [flashLED]
  repeat' split
  all_goals first | rfl | simp

@[simp] theorem flashLED_lastSavedMode (s : St) (now i : Nat) :
    (flashLED s now i).lastSavedMode = s.lastSavedMode := by
  simp only [flashLED]
  repeat' split
  all_goals first | rfl | simp

@[simp] theorem flashLED_lowWater (s : St) (now i : Nat) :
    (flashLED s now i).lowWater = s.lowWater := by
  simp only [flashLED]
  repeat' split
  all_goals first | rfl | simp

@[simp] theorem flashLED_spraying (s : St) (now i : Nat) :
    (flashLED s now i).spraying = s.spraying := by
  simp only [flashLED]
  repeat' split
  all_goals first | rfl | simp

@[simp] theorem flashLED_storedByte (s : St) (now i : Nat) :
    (flashLED s now i).storedByte = s.storedByte := by
  simp only [flashLED]
  repeat' split
  all_goals first | rfl | simp

@[simp] theorem flashLED_writeCount (s : St) (now i : Nat) :
    (flashLED s now i).writeCount = s.writeCount := by
  simp only [flashLED]
  repeat' split
  all_goals first | rfl | simp

@[simp] theorem flashLED_sprayStartTime (s : St) (now i : Nat) :
    (flashLED s now i).sprayStartTime = s.sprayStartTime := by
  simp only [flashLED]
  repeat' split
  all_goals first | rfl | simp

@[simp] theorem flashLED_lastSprayTime (s : St) (now i : Nat) :
    (flashLED s now i).lastSprayTime = s.lastSprayTime := by
  simp only [flashLED]
  repeat' split
  all_goals first | rfl | simp

@[simp] theorem flashLED_startupTime (s : St) (now i : Nat) :
    (flashLED s now i).startupTime = s.startupTime := by
  simp only [flashLED]
  repeat' split
  all_goals first | rfl | simp

@[simp] theorem debouncedWaterLevel_buttonPressStart (s : St) (now : Nat) (raw : Bool) :
    (debouncedWaterLevel s now raw).buttonPressStart = s.buttonPressStart := by
  simp only [debouncedWaterLevel]
  repeat' split
  all_goals first | rfl | simp

@[simp] theorem debouncedWaterLevel_buttonHeld (s : St) (now : Nat) (raw : Bool) :
    (debouncedWaterLevel s now raw).buttonHeld = s.buttonHeld := by
  simp only [debouncedWaterLevel]
  repeat' split
  all_goals first | rfl | simp

@[simp] theorem debouncedWaterLevel_waitingForSecondClick (s : St) (now : Nat) (raw : Bool) :
    (debouncedWaterLevel s now raw).waitingForSecondClick = s.waitingForSecondClick := by
  simp only [debouncedWaterLevel]
  repeat' split
  all_goals first | rfl | simp

@[simp] theorem debouncedWaterLevel_lastClickTime (s : St) (now : Nat) (raw : Bool) :
    (debouncedWaterLevel s now raw).lastClickTime = s.lastClickTime := by
  simp only [debouncedWaterLevel]
  repeat' split
  all_goals first | rfl | simp

@[simp] theorem debouncedWaterLevel_clickCount (s : St) (now : Nat) (raw : Bool) :
    (debouncedWaterLevel s now raw).clickCount = s.clickCount := by
  simp only [debouncedWaterLevel]
  repeat' split
  all_goals first | rfl | simp

@[simp] theorem debouncedWaterLevel_lastDebounceTime (s : St) (now : Nat) (raw : Bool) :
    (debouncedWaterLevel s now raw).lastDebounceTime = s.lastDebounceTime := by
  simp only [debouncedWaterLevel]
  repeat' split
  all_goals first | rfl | simp

@[simp] theorem debouncedWaterLevel_lastRawState (s : St) (now : Nat) (raw : Bool) :
    (debouncedWaterLevel s now raw).lastRawState = s.lastRawState := by
  simp only [debouncedWaterLevel]
  repeat' split
  all_goals first | rfl | simp

@[simp] theorem debouncedWaterLevel_debouncedState (s : St) (now : Nat) (raw : Bool) :
    (debouncedWaterLevel s now raw).debouncedState = s.debouncedState := by
  simp only [debouncedWaterLevel]
  repeat' split
  all_goals first | rfl | simp

@[simp] theorem debouncedWaterLevel_lastSavedMode (s : St) (now : Nat) (raw : Bool) :
    (debouncedWaterLevel s now raw).lastSavedMode = s.lastSavedMode := by
  simp only [debouncedWaterLevel]
  repeat' split
  all_goals first | rfl | simp

@[simp] theorem debouncedWaterLevel_startupTime (s : St) (now : Nat) (raw : Bool) :
    (debouncedWaterLevel s now raw).startupTime = s.startupTime := by
  simp only [debouncedWaterLevel]
  repeat' split
  all_goals first | rfl | simp

@[simp] theorem debouncedWaterLevel_spraying (s : St) (now : Nat) (raw : Bool) :
    (debouncedWaterLevel s now raw).spraying = s.spraying := by
  simp only [debouncedWaterLevel]
  repeat' split
  all_goals first | rfl | simp

@[simp] theorem debouncedWaterLevel_sprayStartTime (s : St) (now : Nat) (raw : Bool) :
    (debouncedWaterLevel s now raw).sprayStartTime = s.sprayStartTime := by
  simp only [debouncedWaterLevel]
  repeat' split
  all_goals first | rfl | simp

@[simp] theorem debouncedWaterLevel_lastSprayTime (s : St) (now : Nat) (raw : Bool) :
    (debouncedWaterLevel s now raw).lastSprayTime = s.lastSprayTime := by
  simp only [debouncedWaterLevel]
  repeat' split
  all_goals first | rfl | simp

@[simp] theorem debouncedWaterLevel_storedByte (s : St) (now : Nat) (raw : Bool) :
    (debouncedWaterLevel s now raw).storedByte = s.storedByte := by
  simp only [debouncedWaterLevel]
  repeat' split
  all_goals first | rfl | simp

@[simp] theorem debouncedWaterLevel_writeCount (s : St) (now : Nat) (raw : Bool) :
    (debouncedWaterLevel s now raw).writeCount = s.writeCount := by
  simp only [debouncedWaterLevel]
  repeat' split
  all_goals first | rfl | simp

@[simp] theorem buttonEdge_lastDebounceTime (s : St) (now : Nat) (r : Bool) :
    (buttonEdge s now r).lastDebounceTime = s.lastDebounceTime := by
  simp only [buttonEdge]
  repeat' split
  all_goals first | rfl | simp

@[simp] theorem buttonEdge_lastRawState (s : St) (now : Nat) (r : Bool) :
    (buttonEdge s now r).lastRawState = s.lastRawState := by
  simp only [buttonEdge]
  repeat' split
  all_goals first | rfl | simp

@[simp] theorem buttonEdge_lastSavedMode (s : St) (now : Nat) (r : Bool) :
    (buttonEdge s now r).lastSavedMode = s.lastSavedMode := by
  simp only [buttonEdge]
  repeat' split
  all_goals first | rfl | simp

@[simp] theorem buttonEdge_lowWater (s : St) (now : Nat) (r : Bool) :
    (buttonEdge s now r).lowWater = s.lowWater := by
  simp only [buttonEdge]
  repeat' split
  all_goals first | rfl | simp

@[simp] theorem buttonEdge_startupDone (s : St) (now : Nat) (r : Bool) :
    (buttonEdge s now r).startupDone = s.startupDone := by
  simp only [buttonEdge]
  repeat' split
  all_goals first | rfl | simp

@[simp] theorem buttonEdge_storedByte (s : St) (now : Nat) (r : Bool) :
    (buttonEdge s now r).storedByte = s.storedByte := by
  simp only [buttonEdge]
  repeat' split
  all_goals first | rfl | simp

@[simp] theorem buttonEdge_writeCount (s : St) (now : Nat) (r : Bool) :
    (buttonEdge s now r).writeCount = s.writeCount := by
  simp only [buttonEdge]
  repeat' split
  all_goals first | rfl | simp

@[simp] theorem buttonEdge_sprayStartTime (s : St) (now : Nat) (r : Bool) :
    (buttonEdge s now r).sprayStartTime = s.sprayStartTime := by
  simp only [buttonEdge]
  repeat' split
  all_goals first | rfl | simp

@[simp] theorem buttonEdge_lastSprayTime (s : St) (now : Nat) (r : Bool) :
    (buttonEdge s now r).lastSprayTime = s.lastSprayTime := by
  simp only [buttonEdge]
  repeat' split
  all_goals first | rfl | simp

@[simp] theorem holdCheck_waitingForSecondClick (s : St) (now : Nat) :
    (holdCheck s now).waitingForSecondClick = s.waitingForSecondClick := by
  simp only [holdCheck]
  repeat' split
  all_goals first | rfl | simp

@[simp] theorem holdCheck_lastClickTime (s : St) (now : Nat) :
    (holdCheck s now).lastClickTime = s.lastClickTime := by
  simp only [holdCheck]
  repeat' split
  all_goals first | rfl | simp

@[simp] theorem holdCheck_clickCount (s : St) (now : Nat) :
    (holdCheck s now).clickCount = s.clickCount := by
  simp only [holdCheck]
  repeat' split
  all_goals first | rfl | simp

@[simp] theorem holdCheck_spraying (s : St) (now : Nat) :
    (holdCheck s now).spraying = s.spraying := by
  simp only [holdCheck]
  repeat' split
  all_goals first | rfl | simp

@[simp] theorem holdCheck_debouncedState (s : St) (now : Nat) :
    (holdCheck s now).debouncedState = s.debouncedState := by
  simp only [holdCheck]
  repeat' split
  all_goals first | rfl | simp

@[simp] theorem holdCheck_lastSavedMode (s : St) (now : Nat) :
    (holdCheck s now).lastSavedMode = s.lastSavedMode := by
  simp only [holdCheck]
  repeat' split
  all_goals first | rfl | simp

@[simp] theorem holdCheck_lastDebounceTime (s : St) (now : Nat) :
    (holdCheck s now).lastDebounceTime = s.lastDebounceTime := by
  simp only [holdCheck]
  repeat' split
  all_goals first | rfl | simp

@[simp] theorem holdCheck_lastRawState (s : St) (now : Nat) :
    (holdCheck s now).lastRawState = s.lastRawState := by
  simp only [holdCheck]
  repeat' split
  all_goals first | rfl | simp

@[simp] theorem holdCheck_lowWater (s : St) (now : Nat) :
    (holdCheck s now).lowWater = s.lowWater := by
  simp only [holdCheck]
  repeat' split
  all_goals first | rfl | simp

@[simp] theorem holdCheck_startupDone (s : St) (now : Nat) :
    (holdCheck s now).startupDone = s.startupDone := by
  simp only [holdCheck]
  repeat' split
  all_goals first | rfl | simp

@[simp] theorem holdCheck_storedByte (s : St) (now : Nat) :
    (holdCheck s now).storedByte = s.storedByte := by
  simp only [holdCheck]
  repeat' split
  all_goals first | rfl | simp

@[simp] theorem holdCheck_writeCount (s : St) (now : Nat) :
    (holdCheck s now).writeCount = s.writeCount := by
  simp only [holdCheck]
  repeat' split
  all_goals first | rfl | simp

@[simp] theorem holdCheck_sprayStartTime (s : St) (now : Nat) :
    (holdCheck s now).sprayStartTime = s.sprayStartTime := by
  simp only [holdCheck]
  repeat' split
  all_goals first | rfl | simp

@[simp] theorem holdCheck_lastSprayTime (s : St) (now : Nat) :
    (holdCheck s now).lastSprayTime = s.lastSprayTime := by
  simp only [holdCheck]
  repeat' split
  all_goals first | rfl | simp

@[simp] theorem holdCheck_led (s : St) (now : Nat) :
    (holdCheck s now).led = s.led := by
  simp only [holdCheck]
  repeat' split
  all_goals first | rfl | simp

@[simp] theorem holdCheck_pump (s : St) (now : Nat) :
    (holdCheck s now).pump = s.pump := by
  simp only [holdCheck]
  repeat' split
  all_goals first | rfl | simp

@[simp] theorem clickResolution_spraying (s : St) (now : Nat) :
    (clickResolution s now).spraying = s.spraying := by
  simp only [clickResolution]
  repeat' split
  all_goals first | rfl | simp

@[simp] theorem clickResolution_debouncedState (s : St) (now : Nat) :
    (clickResolution s now).debouncedState = s.debouncedState := by
  simp only [clickResolution]
  repeat' split
  all_goals first | rfl | simp

@[simp] theorem clickResolution_buttonHeld (s : St) (now : Nat) :
    (clickResolution s now).buttonHeld = s.buttonHeld := by
  simp only [clickResolution]
  repeat' split
  all_goals first | rfl | simp

@[simp] theorem clickResolution_buttonPressStart (s : St) (now : Nat) :
    (clickResolution s now).buttonPressStart = s.buttonPressStart := by
  simp only [clickResolution]
  repeat' split
  all_goals first | rfl | simp

@[simp] theorem clickResolution_lastDebounceTime (s : St) (now : Nat) :
    (clickResolution s now).lastDebounceTime = s.lastDebounceTime := by
  simp only [clickResolution]
  repeat' split
  all_goals first | rfl | simp

@[simp] theorem clickResolution_lastRawState (s : St) (now : Nat) :
    (clickResolution s now).lastRawState = s.lastRawState := by
  simp only [clickResolution]
  repeat' split
  all_goals first | rfl | simp

@[simp] theorem clickResolution_lowWater (s : St) (now : Nat) :
    (clickResolution s now).lowWater = s.lowWater := by
  simp only [clickResolution]
  repeat' split
  all_goals first | rfl | simp

@[simp] theorem clickResolution_startupDone (s : St) (now : Nat) :
    (clickResolution s now).startupDone = s.startupDone := by
  simp only [clickResolution]
  repeat' split
  all_goals first | rfl | simp

@[simp] theorem clickResolution_sprayStartTime (s : St) (now : Nat) :
    (clickResolution s now).sprayStartTime = s.sprayStartTime := by
  simp only [clickResolution]
  repeat' split
  all_goals first | rfl | simp

@[simp] theorem clickResolution_lastSprayTime (s : St) (now : Nat) :
    (clickResolution s now).lastSprayTime = s.lastSprayTime := by
  simp only [clickResolution]
  repeat' split
  all_goals first | rfl | simp

@[simp] theorem handleButton_lowWater (s : St) (now : Nat) (r : Bool) :
    (handleButton s now r).lowWater = s.lowWater := by
  simp only [handleButton]
  repeat' split
  all_goals first | rfl | simp

@[simp] theorem handleButton_startupDone (s : St) (now : Nat) (r : Bool) :
    (handleButton s now r).startupDone = s.startupDone := by
  simp only [handleButton]
  repeat' split
  all_goals first | rfl | simp

@[simp] theorem handleButton_sprayStartTime (s : St) (now : Nat) (r : Bool) :
    (handleButton s now r).sprayStartTime = s.sprayStartTime := by
  simp only [handleButton]
  repeat' split
  all_goals first | rfl | simp

@[simp] theorem handleButton_lastSprayTime (s : St) (now : Nat) (r : Bool) :
    (handleButton s now r).lastSprayTime = s.lastSprayTime := by
  simp only [handleButton]
  repeat' split
  all_goals first | rfl | simp

@[simp] theorem loopPre_lowWater (s : St) (i : Inp) :
    (loopPre s i).lowWater = s.lowWater := by
  simp only [loopPre]
  repeat' split
  all_goals first | rfl | simp

@[simp] theorem loopPre_startupDone (s : St) (i : Inp) :
    (loopPre s i).startupDone = s.startupDone := by
  simp only [loopPre]
  repeat' split
  all_goals first | rfl | simp

@[simp] theorem stopSpray_spraying (s : St) : (stopSpray s).spraying = false := by
  simp only [stopSpray]
  split <;> rfl

@[simp] theorem startSpray_spraying (s : St) (now : Nat) :
    (startSpray s now).spraying = true := rfl

/-!  Claim C1.  The spec says `startSpray(now)` is a no-op when a session
is already active or the low-water flag is set.  The source function
(lines 336-342) has no guard at all: it unconditionally restarts the
session bookkeeping and re-asserts the outputs.  -/

/-- C1 counterexample: with a session already active (a state Force mode
reaches, since it re-calls `startSpray` every cycle), the call is not a
no-op — it rewrites `sprayStartTime` and `lastSprayTime`. -/
theorem c1_counterexample :
    c1state.spraying = true ∧ c1state.sprayStartTime = 5 ∧ c1state.lastSprayTime = 5 ∧
    (startSpray c1state 100).sprayStartTime = 100 ∧
    (startSpray c1state 100).lastSprayTime = 100 := by decide

/-- C1 (amended): `startSpray(now)` always sets the session active,
records `now` as both start time and last-start time, and commands pump
and lamp ON — even when a session is already active or the debounced
low-water flag is set; the guards live in the callers, not in
`startSpray`. -/
theorem c1_startSpray_always_starts (s : St) (now : Nat)
    (h : s.spraying = true ∨ s.lowWater = true) :
    (startSpray s now).spraying = true ∧ (startSpray s now).sprayStartTime = now ∧
    (startSpray s now).lastSprayTime = now ∧ (startSpray s now).pump = true ∧
    (startSpray s now).led = true := by
  simp [startSpray]

/-- C1 witness: the amended theorem applied at the counterexample state. -/
theorem c1_witness :
    (startSpray c1state 100).spraying = true ∧
    (startSpray c1state 100).sprayStartTime = 100 ∧
    (startSpray c1state 100).lastSprayTime = 100 ∧
    (startSpray c1state 100).pump = true ∧ (startSpray c1state 100).led = true :=
  c1_startSpray_always_starts c1state 100 (Or.inl (by decide))

/-!  Claim C4.  In `trackBoostDuration` (lines 433-455) `lastBoostUpdate`
is assigned `now` on every path before the check
`(now - lastBoostUpdate) > cooldownWindow`, so that check is always
`0 > 60000` and the reset is dead code: stale credit is never discarded.  -/

/-- C4: after 10 s of boost credit and then a 69 999 ms gap since the last
boost-active sample, the accumulator still holds 10 000 (the claim requires
0), and 10 s of fresh boost activity then reaches the 20 000 ms threshold
and arms the cooldown flag using the stale credit. -/
theorem c4_stale_credit_persists :
    c4mid.boostTimeAccumulator = 10000 ∧
    c4end.cooldownReady = true ∧ c4end.boostTimeAccumulator = 0 := by decide

/-!  Claim C8.  `stopSpray` (lines 344-351) unconditionally forces the
lamp off when no flash pattern is active, so calling it with the lamp lit
(e.g. mid warning-blink) is observable even with no session active.  -/

/-- C8 counterexample: no session active, no flash pattern active, lamp
currently lit — `stopSpray` turns the lamp off, an observable effect. -/
theorem c8_counterexample :
    c8state.spraying = false ∧ c8state.pump = false ∧ c8state.flashActive = false ∧
    c8state.led = true ∧ (stopSpray c8state).led = false := by decide

/-- C8 (amended): calling `stopSpray` with no session active is a complete
no-op (pump, lamp, session fields, storage all unchanged) provided the
lamp is already off or a flash pattern owns the lamp; without that proviso
the lamp is forced off. -/
theorem c8_stopSpray_idle_noop (s : St) (h1 : s.spraying = false) (h2 : s.pump = false)
    (h3 : s.flashActive = true ∨ s.led = false) : stopSpray s = s := by
  cases s
  rcases h3 with h3 | h3 <;> simp_all [stopSpray]

/-- C8 witness: the amended theorem at the boot state. -/
theorem c8_witness : stopSpray (setup 0 0) = setup 0 0 :=
  c8_stopSpray_idle_noop (setup 0 0) (by decide) (by decide) (Or.inr (by decide))

/-!  Claim C9.  `checkRefillDetection` (lines 479-495) implements the
5-pulse refill acknowledgment, but `loop` never calls it (nor `blinkLED`),
so no execution of the control cycle ever renders the pattern.  -/

/-- C9: a control cycle never renders any `blinkLED` pattern and never
touches the refill-detection state — the 5-pulse refill acknowledgment is
unreachable from `loop`. -/
theorem c9_refill_pattern_never_rendered (s : St) (i : Inp) :
    (loopStep s i).blinkLog = s.blinkLog ∧
    (loopStep s i).refillRecentlyDetected = s.refillRecentlyDetected ∧
    (loopStep s i).refillDetectionTime = s.refillDetectionTime := by simp

/-- Supporting fact for C9: had `checkRefillDetection` been called on a
low-to-OK transition of the debounced water level, it would render the
5-pulse pattern (with 100 ms half-period) exactly as the spec says. -/
theorem checkRefillDetection_on_transition (s : St) (now : Nat)
    (h1 : s.lastLowWaterState = true) (h2 : s.lowWater = false) :
    (checkRefillDetection s now).blinkLog = s.blinkLog ++ [(5, 100)] := by
  simp [checkRefillDetection, blinkLED, h1, h2, sub32_self]

/-!  Claim C7: `saveModeIfNeeded` (lines 392-399).  -/

/-- C7: the persistent store is written only when the current mode differs
from the last value saved; the value written equals the current mode and is
one of 0 (Off), 1 (Boost), 2 (Interval) — Force is never written; a call
with no pending change is a complete no-op, and a second call right after
a write performs no further write (at most one write per mode change). -/
theorem c7_write_only_on_change (s : St) :
    (s.currentMode = s.lastSavedMode ∨ s.currentMode = Mode.force →
      saveModeIfNeeded s = s) ∧
    ((saveModeIfNeeded s).writeCount ≠ s.writeCount →
      s.currentMode ≠ s.lastSavedMode ∧ s.currentMode ≠ Mode.force ∧
      (saveModeIfNeeded s).writeCount = s.writeCount + 1 ∧
      (saveModeIfNeeded s).storedByte = modeVal s.currentMode ∧
      ((saveModeIfNeeded s).storedByte = 0 ∨ (saveModeIfNeeded s).storedByte = 1 ∨
        (saveModeIfNeeded s).storedByte = 2) ∧
      (saveModeIfNeeded s).lastSavedMode = s.currentMode) ∧
    saveModeIfNeeded (saveModeIfNeeded s) = saveModeIfNeeded s := by
  refine ⟨?_, ?_, ?_⟩
  · intro h
    rcases h with h | h <;> cases s <;> simp_all [saveModeIfNeeded]
  · intro h
    cases hm : s.currentMode <;> cases s <;>
      simp_all [saveModeIfNeeded, modeVal] <;> repeat' split at h <;> simp_all
  · cases s
    simp_all [saveModeIfNeeded]
    repeat' split
    all_goals simp_all

/-- C7 witness: with the mode changed to Boost and flash holding Off, one
write of value 1 occurs; at the boot state no write occurs. -/
theorem c7_witness :
    ((saveModeIfNeeded c7changedState).writeCount = c7changedState.writeCount + 1 ∧
      (saveModeIfNeeded c7changedState).storedByte = modeVal c7changedState.currentMode) ∧
    saveModeIfNeeded (setup 0 0) = setup 0 0 :=
  ⟨⟨((c7_write_only_on_change c7changedState).2.1 (by decide)).2.2.1,
    ((c7_write_only_on_change c7changedState).2.1 (by decide)).2.2.2.1⟩,
   (c7_write_only_on_change (setup 0 0)).1 (Or.inl (by decide))⟩

/-!  Claim C5: pending-click resolution in `handleButton`.  A third click
inside the 500 ms window drives `clickCount` to 3, and the resolution
block (lines 171-203) resets only for counts 1 and 2, so the pending state
is never cleared.  -/

/-- C5 counterexample: after three debounced clicks in one window and an
idle sample at t = 1 000 000 ms (window long expired), the pending-click
state is still set with count 3; reachable from the boot state. -/
theorem c5_counterexample :
    c5end.waitingForSecondClick = true ∧ c5end.clickCount = 3 ∧
    doubleClickMaxGap < sub32 1000000 c5end.lastClickTime := by decide

/-- C5 (amended): resolution is guaranteed only for a pending count of 1
or 2: on a stable released sample with the window expired, the pending
count resets to 0 and the waiting flag clears; with three or more pending
clicks the state is never reset (idle samples leave it unchanged, as the
companion invariant below shows). -/
theorem c5_resolution_for_small_counts (s : St) (now : Nat) (reading : Bool)
    (hr : reading = s.lastRawState) (hd : reading = s.debouncedState)
    (hs : debounceDelay < sub32 now s.lastDebounceTime)
    (hw : s.waitingForSecondClick = true)
    (he : doubleClickMaxGap < sub32 now s.lastClickTime)
    (hc : s.clickCount = 1 ∨ s.clickCount = 2) :
    (handleButton s now reading).clickCount = 0 ∧
    (handleButton s now reading).waitingForSecondClick = false := by
  subst hr
  rcases hc with hc | hc <;>
    simp [handleButton, buttonEdge, holdCheck, clickResolution, hd, hs, hw, he, hc] <;>
    repeat' split <;> simp_all

/-- C5 companion invariant: once the pending count is 3 and the button is
stably released, any further released sample leaves the stuck pending
state untouched — it persists indefinitely. -/
theorem c5_stuck_state_persists (s : St) (now : Nat)
    (hd : s.debouncedState = true) (hw : s.waitingForSecondClick = true)
    (hc : s.clickCount = 3) :
    (handleButton s now true).waitingForSecondClick = true ∧
    (handleButton s now true).clickCount = 3 := by
  cases hL : s.lastRawState <;>
    simp [handleButton, buttonEdge, holdCheck, clickResolution, hd, hw, hc, sub32_self,
          hL] <;>
    repeat' split <;> simp_all

/-- C5 witness: the amended resolution theorem at a concrete expired
single-click state. -/
theorem c5_witness :
    (handleButton c5witState 1000 true).clickCount = 0 ∧
    (handleButton c5witState 1000 true).waitingForSecondClick = false :=
  c5_resolution_for_small_counts c5witState 1000 true (by decide) (by decide)
    (by decide) (by decide) (by decide) (Or.inl (by decide))

/-!  Claim C3: `triggerCooldownSpray` (lines 457-476).  The `else return`
makes the duration check below it reachable only in the cycle the cooldown
spray starts, so `cooling` is never cleared: the first cooldown spray is
stopped by `runBoostMode`'s duration check, but every later arming of
`cooldownReady` finds `cooling` still true and never fires.  -/

/-- C3: from boot in Boost mode with the boost switch held, the first
arming (at 35 000 ms) starts a cooldown spray, which is stopped after its
2 000 ms duration (by 37 000 ms); the accumulator re-arms at 55 000 ms
with water OK and no spray physically running, yet no new session starts
then or on the next cycle — `cooldownReady` stays pending and `cooling`
stays true forever. -/
theorem c3_cooldown_never_recurs :
    (c3mid.cooling = true ∧ c3mid.spraying = true ∧ c3mid.pump = true ∧
      c3mid.sprayStartTime = 35000 ∧ c3mid.cooldownReady = false) ∧
    (c3end.cooldownReady = true ∧ c3end.cooling = true ∧
      c3end.spraying = false ∧ c3end.pump = false ∧
      c3end.lastLowWaterState = false) := by decide

/-- Supporting fact for C3: once `cooling` is set it can never be cleared
— `triggerCooldownSpray` leaves a true `cooling` flag true, whatever the
state and time. -/
theorem triggerCooldownSpray_cooling_stuck (s : St) (now : Nat)
    (h : s.cooling = true) : (triggerCooldownSpray s now).cooling = true := by
  simp [triggerCooldownSpray, h]

/-!  Claim C10: outside Boost mode the two cooldown functions return
immediately (lines 436, 461), and the early-return paths of `loop`
(startup, warning, Force) never reach them, so the cooldown state is
frozen, not reset.  -/

theorem trackBoostDuration_skip (s : St) (b : Bool) (now : Nat)
    (h : s.currentMode ≠ Mode.boost) : trackBoostDuration s b now = s := by
  simp only [trackBoostDuration]
  exact if_pos h

theorem triggerCooldownSpray_skip (s : St) (now : Nat)
    (h : s.currentMode ≠ Mode.boost) : triggerCooldownSpray s now = s := by
  simp only [triggerCooldownSpray]
  exact if_pos h

theorem loopMain_cooldown_frozen (s : St) (i : Inp)
    (h : (loopMain s i).currentMode ≠ Mode.boost) :
    cooldownObs (loopMain s i) = cooldownObs s := by
  simp only [loopMain] at h ⊢
  split at h
  case isTrue hc =>
    rw [if_pos hc]
    simp [cooldownObs]
  case isFalse hc =>
    rw [if_neg hc]
    split at h
    case isTrue hf =>
      rw [if_pos hf]
      split <;> simp [cooldownObs]
    case isFalse hf =>
      rw [if_neg hf]
      rw [triggerCooldownSpray_currentMode, trackBoostDuration_currentMode,
        sprayPhase_currentMode] at h
      rw [triggerCooldownSpray_skip _ _ (by rwa [trackBoostDuration_currentMode,
        sprayPhase_currentMode]),
        trackBoostDuration_skip _ _ _ (by rwa [sprayPhase_currentMode])]
      simp [cooldownObs]

/-- C10: any control cycle that ends outside Boost mode (and the mode at
the point the cooldown functions would run equals the cycle's final mode)
leaves the whole Boost Cooldown Tracker state — `boostTimeAccumulator`,
`cooldownReady`, `lastBoostUpdate`, `cooling`, `cooldownStart`, `lastBoost`
— exactly unchanged: frozen, not reset, so credit and a pending armed flag
survive excursions through Off, Interval, Force, warning and startup
cycles. -/
theorem c10_cooldown_frozen_outside_boost (s : St) (i : Inp)
    (h : (loopStep s i).currentMode ≠ Mode.boost) :
    cooldownObs (loopStep s i) = cooldownObs s := by
  simp only [loopStep] at h ⊢
  split at h
  case isTrue hc =>
    rw [if_pos hc, loopMain_cooldown_frozen _ _ h]
    simp [cooldownObs]
  case isFalse hc =>
    rw [if_neg hc]
    split at h
    case isTrue h2 =>
      rw [if_pos h2]
      split at h
      case isTrue h3 =>
        rw [if_pos h3]
        simp [cooldownObs]
      case isFalse h3 =>
        rw [if_neg h3, loopMain_cooldown_frozen _ _ h]
        simp [cooldownObs]
    case isFalse h2 =>
      rw [if_neg h2]
      split at h
      case isTrue h3 =>
        rw [if_pos h3]
        simp [cooldownObs]
      case isFalse h3 =>
        rw [if_neg h3, loopMain_cooldown_frozen _ _ h]
        simp [cooldownObs]

/-- C10 witness: a post-startup Off-mode cycle with the boost switch
active leaves the cooldown state untouched. -/
theorem c10_witness : cooldownObs (loopStep c10state c10inp) = cooldownObs c10state :=
  c10_cooldown_frozen_outside_boost c10state c10inp (by decide)

/-!  Claim C6: hold classification in `handleButton` (lines 136-168).  -/

/-- C6: for a press whose stable pressed phase is sampled past the 2 000 ms
threshold, the classifier (1) emits HoldStart exactly once — the sample at
or past the threshold sets the held flag and enters Force mode without
touching the click bookkeeping; (2) once held and still stably pressed the
handler changes nothing at all (no second HoldStart); (3) the stable
release edge with the held flag set emits HoldRelease — it reverts the
mode to the last persisted mode and stops the spray, and does not
increment the click count (no SingleClick/DoubleClick ever arises from
that press); (4) after such a release, further released samples leave mode
and click count unchanged. -/
theorem c6_hold_classification (s : St) (now : Nat) :
    (s.lastRawState = false → s.debouncedState = false → s.buttonHeld = false →
      s.waitingForSecondClick = false →
      debounceDelay < sub32 now s.lastDebounceTime →
      holdThreshold ≤ sub32 now s.buttonPressStart →
      (handleButton s now false).buttonHeld = true ∧
      (handleButton s now false).currentMode = Mode.force ∧
      (handleButton s now false).clickCount = s.clickCount ∧
      (handleButton s now false).waitingForSecondClick = false) ∧
    (s.lastRawState = false → s.debouncedState = false → s.buttonHeld = true →
      s.waitingForSecondClick = false →
      handleButton s now false = s) ∧
    (s.lastRawState = true → s.debouncedState = false → s.buttonHeld = true →
      s.waitingForSecondClick = false →
      debounceDelay < sub32 now s.lastDebounceTime →
      (handleButton s now true).currentMode = s.lastSavedMode ∧
      (handleButton s now true).clickCount = s.clickCount ∧
      (handleButton s now true).waitingForSecondClick = false ∧
      (handleButton s now true).spraying = false ∧
      (handleButton s now true).debouncedState = true ∧
      (handleButton s now true).buttonHeld = true) ∧
    (s.debouncedState = true → s.buttonHeld = true → s.waitingForSecondClick = false →
      (handleButton s now true).currentMode = s.currentMode ∧
      (handleButton s now true).clickCount = s.clickCount ∧
      (handleButton s now true).waitingForSecondClick = false) := by
  refine ⟨?_, ?_, ?_, ?_⟩
  · intro h1 h2 h3 h4 h5 h6
    simp [handleButton, buttonEdge, holdCheck, clickResolution, h1, h2, h3, h4, h5, h6]
  · intro h1 h2 h3 h4
    cases s
    simp_all [handleButton, buttonEdge, holdCheck, clickResolution]
    repeat' split
    all_goals simp_all
  · intro h1 h2 h3 h4 h5
    simp [handleButton, buttonEdge, holdCheck, clickResolution,
          h1, h2, h3, h4, h5]
  · intro h1 h2 h3
    cases hL : s.lastRawState <;>
      simp [handleButton, buttonEdge, holdCheck, clickResolution, sub32_self,
            h1, h2, h3, hL] <;>
      repeat' split <;> simp_all

/-- C6 witness: the four parts applied at concrete states — a press stably
LOW for 2 100 ms, the same state already held, the held release edge, and an
idle released sample. -/
theorem c6_witness :
    ((handleButton c6pressedState 2200 false).buttonHeld = true ∧
      (handleButton c6pressedState 2200 false).currentMode = Mode.force ∧
      (handleButton c6pressedState 2200 false).clickCount = c6pressedState.clickCount ∧
      (handleButton c6pressedState 2200 false).waitingForSecondClick = false) ∧
    handleButton { c6pressedState with buttonHeld := true } 2200 false =
      { c6pressedState with buttonHeld := true } ∧
    ((handleButton c6releaseState 2200 true).currentMode = c6releaseState.lastSavedMode ∧
      (handleButton c6releaseState 2200 true).clickCount = c6releaseState.clickCount ∧
      (handleButton c6releaseState 2200 true).waitingForSecondClick = false ∧
      (handleButton c6releaseState 2200 true).spraying = false ∧
      (handleButton c6releaseState 2200 true).debouncedState = true ∧
      (handleButton c6releaseState 2200 true).buttonHeld = true) ∧
    ((handleButton c6idleState 5 true).currentMode = c6idleState.currentMode ∧
      (handleButton c6idleState 5 true).clickCount = c6idleState.clickCount ∧
      (handleButton c6idleState 5 true).waitingForSecondClick = false) :=
  ⟨(c6_hold_classification c6pressedState 2200).1 (by decide) (by decide) (by decide)
      (by decide) (by decide) (by decide),
   (c6_hold_classification { c6pressedState with buttonHeld := true } 2200).2.1
      (by decide) (by decide) (by decide) (by decide),
   (c6_hold_classification c6releaseState 2200).2.2.1 (by decide) (by decide) (by decide)
      (by decide) (by decide),
   (c6_hold_classification c6idleState 5).2.2.2 (by decide) (by decide) (by decide)⟩

/-!  Claim C2: warning entry and the warning window (lines 251-274).
Entry does force the mode to Off in the same cycle; but `handleButton`
runs before the warning check and the warning-active block never re-forces
the mode, so a click or hold classified during the 10 s window moves the
mode out of Off.  -/

theorem warningBlock_keeps_active (s : St) (now : Nat)
    (h : sub32 now s.lowWaterWarningStart < lowWaterBlinkDuration) :
    (warningBlock s now).lowWaterWarningActive = s.lowWaterWarningActive := by
  simp only [warningBlock, lowWaterBlinkDuration] at h ⊢
  split <;> split
  case isTrue.isTrue he => exfalso; simp at he; omega
  case isTrue.isFalse => simp
  case isFalse.isTrue he => exfalso; omega
  case isFalse.isFalse => simp

/-- C2 counterexample: a full run from boot.  Stored mode Off; startup
passes with water OK; a single click selects Boost; water turns low and
the warning is entered at 16 770 ms, forcing Off; one more single click is
classified at 17 350 ms — only 580 ms into the 10 000 ms window — and the
mode is Boost again while the warning is still active. -/
theorem c2_counterexample :
    c2end.lowWaterWarningActive = true ∧ c2end.lowWaterWarningStart = 16770 ∧
    sub32 17350 c2end.lowWaterWarningStart < lowWaterBlinkDuration ∧
    c2end.currentMode = Mode.boost := by decide

set_option maxRecDepth 8000 in
/-- C2 (amended): (1) whenever the entry condition (debounced water low,
warning not active, mode not Off) holds at the point the warning check
runs, that same cycle ends with the mode Off, the warning active and the
entry time recorded; (2) a later cycle inside the 10 000 ms window keeps
the mode Off and the warning active, provided the cycle's button handling
leaves the mode at Off — a button gesture resolved during the window can
move the mode out of Off, which the warning logic does not undo. -/
theorem c2_warning_entry_forces_off (s : St) (i : Inp) :
    (s.startupDone = true →
      (cyclePre s i).lowWater = true →
      (cyclePre s i).lowWaterWarningActive = false →
      (cyclePre s i).currentMode ≠ Mode.off →
      (loopStep s i).currentMode = Mode.off ∧
      (loopStep s i).lowWaterWarningActive = true ∧
      (loopStep s i).lowWaterWarningStart = i.now) ∧
    (s.startupDone = true →
      s.lowWaterWarningActive = true →
      sub32 i.now s.lowWaterWarningStart < lowWaterBlinkDuration →
      (cyclePre s i).currentMode = Mode.off →
      (loopStep s i).currentMode = Mode.off ∧
      (loopStep s i).lowWaterWarningActive = true) := by
  have hstep : s.startupDone = true →
      loopStep s i = loopMain (debouncedWaterLevel s i.now i.rawWaterLow) i := by
    intro h0
    simp only [loopStep]
    rw [if_pos (by rw [debouncedWaterLevel_startupDone]; exact h0)]
  constructor
  · intro h0 h1 h2 h3
    simp only [cyclePre] at h1 h2 h3
    have hfire : warningEntry (loopPre (debouncedWaterLevel s i.now i.rawWaterLow) i) i.now =
        stopSpray (saveModeIfNeeded
          { loopPre (debouncedWaterLevel s i.now i.rawWaterLow) i with
            lowWaterWarningActive := true, lowWaterWarningStart := i.now,
            currentMode := Mode.off }) := by
      simp only [warningEntry]
      rw [if_pos ⟨h1, h2, h3⟩]
    have hact : (stopSpray (saveModeIfNeeded
        { loopPre (debouncedWaterLevel s i.now i.rawWaterLow) i with
          lowWaterWarningActive := true, lowWaterWarningStart := i.now,
          currentMode := Mode.off })).lowWaterWarningActive = true := by simp
    rw [hstep h0]
    simp only [loopMain]
    rw [hfire, if_pos hact]
    refine ⟨?_, ?_, ?_⟩
    · rw [warningBlock_currentMode]
      simp
    · rw [warningBlock_keeps_active _ _ (by simp [sub32_self, lowWaterBlinkDuration])]
      exact hact
    · rw [warningBlock_lowWaterWarningStart]
      simp
  · intro h0 hw hlt hmode
    simp only [cyclePre] at hmode
    have hspAct : (loopPre (debouncedWaterLevel s i.now i.rawWaterLow) i).lowWaterWarningActive
        = true := by simp [hw]
    have hskip : warningEntry (loopPre (debouncedWaterLevel s i.now i.rawWaterLow) i) i.now =
        loopPre (debouncedWaterLevel s i.now i.rawWaterLow) i := by
      simp only [warningEntry]
      rw [if_neg]
      intro hcon
      rw [hspAct] at hcon
      exact absurd hcon.2.1 (by simp)
    rw [hstep h0]
    simp only [loopMain]
    rw [hskip, if_pos hspAct]
    constructor
    · rw [warningBlock_currentMode]
      exact hmode
    · rw [warningBlock_keeps_active _ _ (by simpa using hlt)]
      exact hspAct

/-- C2 witness: both parts at concrete states — a Boost-mode state with
the debouncer already reading low enters the warning and ends the cycle
Off; a state 1 s into the warning with an idle button stays Off with the
warning active. -/
theorem c2_witness :
    ((loopStep c2entryState c2wInp).currentMode = Mode.off ∧
      (loopStep c2entryState c2wInp).lowWaterWarningActive = true ∧
      (loopStep c2entryState c2wInp).lowWaterWarningStart = c2wInp.now) ∧
    ((loopStep c2keepState c2wInp).currentMode = Mode.off ∧
      (loopStep c2keepState c2wInp).lowWaterWarningActive = true) :=
  ⟨(c2_warning_entry_forces_off c2entryState c2wInp).1 (by decide) (by decide)
      (by decide) (by decide),
   (c2_warning_entry_forces_off c2keepState c2wInp).2 (by decide) (by decide)
      (by decide) (by decide)⟩
